import Mathlib

/-!
Shallow embedding of the slot-validation and booking-assembly engine of the
flight-booking dialogue system (`actions/actions.py` and the flight-store
loader `flight_d.py`), together with theorems checking the specification's
claims against it.

Conventions of the embedding:
* Python `Optional` values are `Option`; Python truthiness of strings and
  integers (`None`, `""` and `0` are falsy) is modelled explicitly.
* The static city-to-code table (`CITY_TO_IATA`, loaded at startup from an
  external JSON file that is not part of the sources) is a parameter `cfg`.
* The SQLite stores are explicit lists of rows; each database helper is a
  pure function from (arguments, store) to (result, store).
* `json.dumps` / `json.loads` on the passenger accumulator are modelled by a
  concrete codec for the exact record shape the code serializes (ASCII
  fragment, with `\"` and `\\` escapes as produced by `json.dumps`).
-/

namespace FlightBooking

/-- Python `x or default` for an optional string slot: `None` and `""` are falsy. -/
def pyOrStr (v : Option String) (d : String) : String :=
  match v with
  | none => d
  | some s => if s = "" then d else s

/-- Python `x or default` for an optional integer slot: `None` and `0` are falsy. -/
def pyOrNat (v : Option Nat) (d : Nat) : Nat :=
  match v with
  | none => d
  | some n => if n = 0 then d else n

/-- Python truthiness of an optional string slot. -/
def truthyStr (v : Option String) : Bool :=
  match v with
  | none => false
  | some s => s ≠ ""

/-- Python `str.strip` over a character list (whitespace from both ends). -/
def stripChars (l : List Char) : List Char :=
  ((l.dropWhile Char.isWhitespace).reverse.dropWhile Char.isWhitespace).reverse

/-- Python `str.strip`. -/
def pyStrip (s : String) : String := String.mk (stripChars s.data)

/-- Python `str.lower` (ASCII). -/
def pyLower (s : String) : String := String.mk (s.data.map Char.toLower)

/-- Python `str.upper` (ASCII). -/
def pyUpper (s : String) : String := String.mk (s.data.map Char.toUpper)

/-- One pass of Python `str.title`: uppercase a letter that follows a
non-letter, lowercase a letter that follows a letter. The flag records
whether the previous character was cased. -/
def titleChars : Bool → List Char → List Char
  | _, [] => []
  | prevAlpha, c :: cs =>
    if c.isAlpha then
      (if prevAlpha then c.toLower else c.toUpper) :: titleChars true cs
    else
      c :: titleChars false cs

/-- Python `str.title` (ASCII fragment: letters are the cased characters). -/
def pyTitle (s : String) : String := String.mk (titleChars false s.data)

/-- Python `str(x)` on an optional string: `None` renders as "None"
(as in an f-string interpolation). -/
def showPyOpt (v : Option String) : String :=
  match v with
  | none => "None"
  | some s => s

/-- Nonempty string of decimal digits, Python `str.isdigit` (ASCII fragment). -/
def allDigits (s : String) : Bool :=
  s ≠ "" && s.data.all Char.isDigit

/-- Decimal value of a digit list (most significant first). -/
def digitsToNat (l : List Char) : Nat :=
  l.foldl (fun acc c => acc * 10 + (c.toNat - 48)) 0

/-- Split a character list at every occurrence of a separator character. -/
def splitOnChar (sep : Char) : List Char → List (List Char)
  | [] => [[]]
  | c :: cs =>
    let rest := splitOnChar sep cs
    if c = sep then [] :: rest
    else
      match rest with
      | [] => [[c]]
      | hd :: tl => (c :: hd) :: tl

/-! ## Passenger records and the JSON codec of the accumulator slot -/

/-- A completed passenger record, as appended by the inner collection loop
(`{"name": ..., "phone": ..., "email": ..., "seat": ...}`). -/
structure Passenger where
  name : String
  phone : String
  email : String
  seat : String
deriving Repr, DecidableEq

/-- JSON string-content escaping as `json.dumps` produces it for the
quote and backslash characters (the fragment exercised here). -/
def escChars : List Char → List Char
  | [] => []
  | c :: cs =>
    if c = '"' ∨ c = '\\' then '\\' :: c :: escChars cs
    else c :: escChars cs

/-- Serialized form of one passenger dict, matching `json.dumps` with its
default separators: keys in insertion order `name`, `phone`, `email`, `seat`. -/
def encPassengerL (p : Passenger) : List Char :=
  "\x7b\"name\": \"".data ++ escChars p.name.data ++
  '"' :: ", \"phone\": \"".data ++ escChars p.phone.data ++
  '"' :: ", \"email\": \"".data ++ escChars p.email.data ++
  '"' :: ", \"seat\": \"".data ++ escChars p.seat.data ++
  '"' :: "\x7d".data

/-- Comma-space separated item list, as inside `json.dumps` of a list
(the default separator between items is the two characters ", "). -/
def encItemsL : List Passenger → List Char
  | [] => []
  | [p] => encPassengerL p
  | p :: ps => encPassengerL p ++ ',' :: ' ' :: encItemsL ps

/-- Model of `json.dumps(passengers)` for the accumulator slot. -/
def dumpsPassengers (l : List Passenger) : String :=
  String.mk ('[' :: (encItemsL l ++ [']']))

/-- Parse a JSON string body up to (and consuming) the unescaped closing
quote, undoing the `\"` and `\\` escapes; returns content and remainder.
The flag records whether the previous character was an unconsumed backslash. -/
def parseJStrAux : Bool → List Char → Option (List Char × List Char)
  | _, [] => none
  | true, c :: cs => (parseJStrAux false cs).map (fun pr => (c :: pr.1, pr.2))
  | false, c :: cs =>
    if c = '"' then some ([], cs)
    else if c = '\\' then parseJStrAux true cs
    else (parseJStrAux false cs).map (fun pr => (c :: pr.1, pr.2))

/-- Parse a JSON string body (initial, non-escaped state). -/
def parseJStr (l : List Char) : Option (List Char × List Char) :=
  parseJStrAux false l

/-- Consume an expected literal from the front of the input. -/
def stripLit : List Char → List Char → Option (List Char)
  | [], s => some s
  | _ :: _, [] => none
  | c :: cs, x :: xs => if c = x then stripLit cs xs else none

/-- Consume a literal key part (up to and including its opening quote) and
then a JSON string body; returns the body content and the remainder. -/
def parseFieldL (lit s : List Char) : Option (List Char × List Char) :=
  match stripLit lit s with
  | none => none
  | some s2 => parseJStr s2

/-- Parse one serialized passenger dict (the exact shape `dumpsPassengers`
emits); returns the record and the remainder. -/
def parsePassengerL (s : List Char) : Option (Passenger × List Char) := do
  let (nm, s) ← parseFieldL "\x7b\"name\": \"".data s
  let (ph, s) ← parseFieldL ", \"phone\": \"".data s
  let (em, s) ← parseFieldL ", \"email\": \"".data s
  let (st, s) ← parseFieldL ", \"seat\": \"".data s
  let s ← stripLit "\x7d".data s
  pure (⟨String.mk nm, String.mk ph, String.mk em, String.mk st⟩, s)

/-- Parse a nonempty comma-separated item sequence terminated by `]`.
Fuel bounds the number of items (any bound at least the item count works). -/
def parseItemsL (fuel : Nat) (s : List Char) : Option (List Passenger × List Char) :=
  match fuel with
  | 0 => none
  | fuel + 1 =>
    match parsePassengerL s with
    | none => none
    | some (p, r) =>
      match r with
      | ']' :: r2 => some ([p], r2)
      | ',' :: ' ' :: r2 =>
        match parseItemsL fuel r2 with
        | some (ps, r3) => some (p :: ps, r3)
        | none => none
      | _ => none

/-- Model of `json.loads` on the accumulator slot: accepts exactly the
serializations produced by `dumpsPassengers`; `none` models a parse failure
(the code recovers from those as an empty list). -/
def loadsPassengers (s : String) : Option (List Passenger) :=
  if s = "[]" then some []
  else
    match s.data with
    | '[' :: rest =>
      match parseItemsL rest.length rest with
      | some (ps, []) => some ps
      | _ => none
    | _ => none

/-! ### Roundtrip of the codec -/

theorem parseJStr_esc (s : List Char) (r : List Char) :
    parseJStr (escChars s ++ '"' :: r) = some (s, r) := by
  unfold parseJStr
  induction s with
  | nil => rfl
  | cons c cs ih =>
    by_cases h : c = '"' ∨ c = '\\'
    · rw [escChars, if_pos h]
      show (parseJStrAux false (escChars cs ++ '"' :: r)).map (fun pr => (c :: pr.1, pr.2)) =
        some (c :: cs, r)
      rw [ih]
      rfl
    · rw [escChars, if_neg h]
      push_neg at h
      show parseJStrAux false (c :: (escChars cs ++ '"' :: r)) = some (c :: cs, r)
      rw [parseJStrAux, if_neg h.1, if_neg h.2, ih]
      rfl

theorem stripLit_append (lit s : List Char) :
    stripLit lit (lit ++ s) = some s := by
  induction lit with
  | nil => simp [stripLit]
  | cons c cs ih => simp [stripLit, ih]

theorem parseFieldL_enc (lit c r : List Char) :
    parseFieldL lit (lit ++ (escChars c ++ '"' :: r)) = some (c, r) := by
  rw [parseFieldL, stripLit_append]
  exact parseJStr_esc c r

theorem parsePassengerL_enc (p : Passenger) (r : List Char) :
    parsePassengerL (encPassengerL p ++ r) = some (p, r) := by
  rw [show encPassengerL p ++ r =
      "\x7b\"name\": \"".data ++ (escChars p.name.data ++ '"' ::
      (", \"phone\": \"".data ++ (escChars p.phone.data ++ '"' ::
      (", \"email\": \"".data ++ (escChars p.email.data ++ '"' ::
      (", \"seat\": \"".data ++ (escChars p.seat.data ++ '"' ::
      ("\x7d".data ++ r)))))))) from by
    simp only [encPassengerL, List.append_assoc, List.cons_append]]
  rw [parsePassengerL, parseFieldL_enc]
  simp only [Option.bind_eq_bind, Option.some_bind]
  rw [parseFieldL_enc]
  simp only [Option.some_bind]
  rw [parseFieldL_enc]
  simp only [Option.some_bind]
  rw [parseFieldL_enc]
  simp only [Option.some_bind]
  rw [stripLit_append]
  rfl

theorem encPassengerL_ne_nil (p : Passenger) : encPassengerL p ≠ [] := by
  simp [encPassengerL]

theorem parseItemsL_enc (ps : List Passenger) (p : Passenger) (fuel : Nat)
    (h : ps.length + 1 ≤ fuel) :
    parseItemsL fuel (encItemsL (p :: ps) ++ [']']) = some (p :: ps, []) := by
  induction ps generalizing p fuel with
  | nil =>
    cases fuel with
    | zero => exact (Nat.not_succ_le_zero _ h).elim
    | succ f =>
      rw [show encItemsL [p] = encPassengerL p from rfl]
      rw [parseItemsL, parsePassengerL_enc]
      rfl
  | cons q qs ih =>
    cases fuel with
    | zero => exact (Nat.not_succ_le_zero _ h).elim
    | succ f =>
      have hf : qs.length + 1 ≤ f := by
        simp only [List.length_cons] at h
        omega
      rw [show encItemsL (p :: q :: qs) = encPassengerL p ++ (',' :: ' ' :: encItemsL (q :: qs))
        from rfl]
      simp only [List.append_assoc, List.cons_append]
      rw [parseItemsL, parsePassengerL_enc]
      show (match parseItemsL f (encItemsL (q :: qs) ++ [']']) with
        | some (ps, r3) => some (p :: ps, r3)
        | none => none) = some (p :: q :: qs, [])
      rw [ih q f hf]

theorem encItemsL_cons_ne_nil (p : Passenger) (ps : List Passenger) :
    encItemsL (p :: ps) ≠ [] := by
  cases ps with
  | nil => simpa [encItemsL] using encPassengerL_ne_nil p
  | cons q qs => simp [encItemsL, encPassengerL]

theorem encItemsL_length_ge (p : Passenger) (ps : List Passenger) :
    ps.length + 1 ≤ (encItemsL (p :: ps)).length := by
  induction ps generalizing p with
  | nil => simp [encItemsL, encPassengerL]
  | cons q qs ih =>
    have h := ih q
    have : encItemsL (p :: q :: qs) = encPassengerL p ++ (',' :: ' ' :: encItemsL (q :: qs)) := by
      simp [encItemsL]
    rw [this]
    have hp : 1 ≤ (encPassengerL p).length := by simp [encPassengerL]
    simp only [List.length_append, List.length_cons]
    omega

theorem dumps_ne_empty (l : List Passenger) : dumpsPassengers l ≠ "" := by
  intro h
  have := congrArg String.data h
  simp [dumpsPassengers] at this

/-- The codec roundtrips: deserializing a serialized accumulator recovers it. -/
theorem loads_dumps (l : List Passenger) :
    loadsPassengers (dumpsPassengers l) = some l := by
  cases l with
  | nil => rfl
  | cons p ps =>
    have hlen := encItemsL_length_ge p ps
    have hneq : dumpsPassengers (p :: ps) ≠ "[]" := by
      intro h
      have hd : '[' :: (encItemsL (p :: ps) ++ [']']) = "[]".data := congrArg String.data h
      have hL := congrArg List.length hd
      rw [show ("[]".data).length = 2 from rfl] at hL
      simp only [List.length_cons, List.length_append, List.length_singleton] at hL
      omega
    rw [loadsPassengers, if_neg hneq]
    show (match parseItemsL (encItemsL (p :: ps) ++ [']']).length (encItemsL (p :: ps) ++ [']']) with
      | some (ps, []) => some ps
      | _ => none) = some (p :: ps)
    rw [parseItemsL_enc ps p _ (by simp only [List.length_append, List.length_singleton]; omega)]

/-! ## Dates -/

/-- A calendar date as `datetime.date` carries it. -/
structure PDate where
  year : Nat
  month : Nat
  day : Nat
deriving Repr, DecidableEq

def isLeapYear (y : Nat) : Bool :=
  y % 4 = 0 && (y % 100 ≠ 0 || y % 400 = 0)

def daysInMonth (y m : Nat) : Nat :=
  if m = 2 then (if isLeapYear y then 29 else 28)
  else if m = 4 ∨ m = 6 ∨ m = 9 ∨ m = 11 then 30
  else 31

/-- Validity of a (year, month, day) triple exactly as the `datetime(y, m, d)`
constructor accepts it (MINYEAR 1 to MAXYEAR 9999); a failure is a ValueError. -/
def validYMD (y m d : Nat) : Bool :=
  1 ≤ y && y ≤ 9999 && 1 ≤ m && m ≤ 12 && 1 ≤ d && d ≤ daysInMonth y m

/-- Strict `date` comparison `a < b`. -/
def dateLt (a b : PDate) : Bool :=
  decide (a.year < b.year ∨ (a.year = b.year ∧
    (a.month < b.month ∨ (a.month = b.month ∧ a.day < b.day))))

/-- The strict conversational pattern `^\d{2}/\d{2}/\d{4}$` (`_DDMMYYYY_RE`). -/
def ddmmyyyyMatch (s : String) : Bool :=
  match s.data with
  | [d1, d2, c1, m1, m2, c2, y1, y2, y3, y4] =>
    d1.isDigit && d2.isDigit && c1 == '/' && m1.isDigit && m2.isDigit && c2 == '/' &&
    y1.isDigit && y2.isDigit && y3.isDigit && y4.isDigit
  | _ => false

/-- Parse a slashed date: `_SLASHED_RE` (`(\d{1,2})/(\d{1,2})/(\d{4})`, day
first) followed by `datetime(y, m, d)` construction; `none` models both a
non-match and a ValueError. The same function models
`strptime(s, "%d/%m/%Y")`, with which it agrees on every input that has
already passed the strict `ddmmyyyyMatch` gate. -/
def parseSlashDate (s : String) : Option PDate :=
  match (splitOnChar '/' s.data).map String.mk with
  | [ds, ms, ys] =>
    if allDigits ds && allDigits ms && allDigits ys &&
        ds.data.length ≤ 2 && ms.data.length ≤ 2 && ys.data.length = 4 then
      let d := digitsToNat ds.data
      let m := digitsToNat ms.data
      let y := digitsToNat ys.data
      if validYMD y m d then some ⟨y, m, d⟩ else none
    else none
  | _ => none

/-- The pattern `^\d{4}-\d{2}-\d{2}$` (`_ISO_DATE_RE`); no calendar check. -/
def isoDateMatch (s : String) : Bool :=
  match s.data with
  | [y1, y2, y3, y4, h1, m1, m2, h2, d1, d2] =>
    y1.isDigit && y2.isDigit && y3.isDigit && y4.isDigit && h1 == '-' &&
    m1.isDigit && m2.isDigit && h2 == '-' && d1.isDigit && d2.isDigit
  | _ => false

def pad2 (n : Nat) : String := if n < 10 then "0" ++ toString n else toString n

def pad4 (n : Nat) : String :=
  if n < 10 then "000" ++ toString n
  else if n < 100 then "00" ++ toString n
  else if n < 1000 then "0" ++ toString n
  else toString n

/-- `date.isoformat()`. -/
def isoFormat (dt : PDate) : String :=
  pad4 dt.year ++ "-" ++ pad2 dt.month ++ "-" ++ pad2 dt.day

/-- `_to_iso_from_ddmmyyyy`: falsy input is `None`; ISO-shaped input passes
through unchanged; a slashed day-first date is calendar-checked and rendered
as ISO; anything else is `None`. -/
def toIsoFromDdmmyyyy (s : String) : Option String :=
  if s = "" then none
  else
    let t := pyStrip s
    if isoDateMatch t then some t
    else
      match parseSlashDate t with
      | some dt => some (isoFormat dt)
      | none => none

/-! ## Location configuration and candidate expansion -/

/-- The static nearby-airport table `NEARBY_BY_IATA`. -/
def nearbyByIata (code : String) : List String :=
  if code = "BNE" then ["OOL"]
  else if code = "ICN" then ["GMP"]
  else if code = "GMP" then ["ICN"]
  else []

/-- `CITY_TO_IATA` is built at startup from an external JSON file (title-cased
city keys mapping to uppercased IATA codes); the embedding passes it around
as a parameter. -/
abbrev CityMap := List (String × String)

/-- `_city_to_iata`: look up the title-cased, stripped city name; fall back to
the stripped, uppercased raw input. -/
def cityToIataFn (cfg : CityMap) (name : String) : String :=
  match cfg.lookup (pyTitle (pyStrip name)) with
  | some iata => iata
  | none => pyUpper (pyStrip name)

/-- Order-preserving deduplication dropping falsy (empty) codes, as in the
seen-set loop of `_expand_iata_candidates`. -/
def dedupKeepFirst (seen : List String) : List String → List String
  | [] => []
  | c :: rest =>
    if c = "" ∨ c ∈ seen then dedupKeepFirst seen rest
    else c :: dedupKeepFirst (c :: seen) rest

/-- `_expand_iata_candidates`. -/
def expandIataCandidates (cfg : CityMap) (name : String) : List String :=
  let primary := cityToIataFn cfg name
  if primary = "" then []
  else dedupKeepFirst [] (primary :: nearbyByIata primary)

/-! ## The flight store and `_query_flights_for_date` -/

/-- A row of the external `flights` store (schema in `flight_d.py`):
normalized ISO travel_date, IATA codes, nullable departure/arrival times. -/
structure FlightRow where
  flight_name : String
  travel_date : String
  origin : String
  destination : String
  departure_time : Option String
  arrival_time : Option String
deriving Repr, DecidableEq

/-- SQLite `(departure_time IS NULL)`: nulls sort last. -/
def depNullRank (r : FlightRow) : Nat :=
  match r.departure_time with
  | none => 1
  | some _ => 0

def depVal (r : FlightRow) : String := r.departure_time.getD ""

/-- Codepoint-lexicographic string order, as SQLite compares TEXT values
byte-wise (UTF-8 byte order agrees with codepoint order). -/
def strLeChars : List Char → List Char → Bool
  | [], _ => true
  | _ :: _, [] => false
  | a :: as, b :: bs =>
    if a.toNat < b.toNat then true
    else if a.toNat = b.toNat then strLeChars as bs
    else false

def strLe (a b : String) : Bool := strLeChars a.data b.data

/-- The ORDER BY key of `_query_flights_for_date`:
`(departure_time IS NULL), departure_time` ascending. -/
def depLE (a b : FlightRow) : Prop :=
  depNullRank a < depNullRank b ∨
    (depNullRank a = depNullRank b ∧ strLe (depVal a) (depVal b) = true)

instance : DecidableRel depLE := fun a b => by
  unfold depLE
  infer_instance

theorem strLeChars_total (a b : List Char) :
    strLeChars a b = true ∨ strLeChars b a = true := by
  induction a generalizing b with
  | nil => left; rfl
  | cons x xs ih =>
    cases b with
    | nil => right; rfl
    | cons y ys =>
      rcases Nat.lt_trichotomy x.toNat y.toNat with h | h | h
      · left
        simp [strLeChars, h]
      · rcases ih ys with h2 | h2
        · left
          simp [strLeChars, h, h2]
        · right
          simp [strLeChars, h.symm, h2]
      · right
        simp [strLeChars, h]

theorem strLeChars_trans (a b c : List Char) (h1 : strLeChars a b = true)
    (h2 : strLeChars b c = true) : strLeChars a c = true := by
  induction a generalizing b c with
  | nil => rfl
  | cons x xs ih =>
    cases b with
    | nil => simp [strLeChars] at h1
    | cons y ys =>
      cases c with
      | nil => simp [strLeChars] at h2
      | cons z zs =>
        simp only [strLeChars] at h1 h2 ⊢
        by_cases hxy : x.toNat < y.toNat
        · by_cases hyz : y.toNat < z.toNat
          · simp [show x.toNat < z.toNat by omega]
          · by_cases hyz2 : y.toNat = z.toNat
            · simp [show x.toNat < z.toNat by omega]
            · simp [hyz, hyz2] at h2
        · by_cases hxy2 : x.toNat = y.toNat
          · rw [if_neg hxy, if_pos hxy2] at h1
            by_cases hyz : y.toNat < z.toNat
            · simp [show x.toNat < z.toNat by omega]
            · by_cases hyz2 : y.toNat = z.toNat
              · rw [if_neg hyz, if_pos hyz2] at h2
                rw [if_neg (show ¬ x.toNat < z.toNat by omega),
                  if_pos (show x.toNat = z.toNat by omega)]
                exact ih ys zs h1 h2
              · rw [if_neg hyz, if_neg hyz2] at h2
                exact absurd h2 (by simp)
          · rw [if_neg hxy, if_neg hxy2] at h1
            exact absurd h1 (by simp)

instance : IsTotal FlightRow depLE := ⟨by
  intro a b
  unfold depLE
  rcases Nat.lt_trichotomy (depNullRank a) (depNullRank b) with h | h | h
  · exact Or.inl (Or.inl h)
  · rcases strLeChars_total (depVal a).data (depVal b).data with h2 | h2
    · exact Or.inl (Or.inr ⟨h, h2⟩)
    · exact Or.inr (Or.inr ⟨h.symm, h2⟩)
  · exact Or.inr (Or.inl h)⟩

instance : IsTrans FlightRow depLE := ⟨by
  intro a b c h1 h2
  unfold depLE at h1 h2 ⊢
  rcases h1 with h1 | ⟨h1e, h1s⟩ <;> rcases h2 with h2 | ⟨h2e, h2s⟩
  · exact Or.inl (by omega)
  · exact Or.inl (by omega)
  · exact Or.inl (by omega)
  · exact Or.inr ⟨h1e.trans h2e, strLeChars_trans _ _ _ h1s h2s⟩⟩

/-- Row filter of the SQL WHERE clause. -/
def flightMatches (dateIso : String) (oc dc : List String) (r : FlightRow) : Bool :=
  r.travel_date == dateIso && oc.contains r.origin && dc.contains r.destination

/-- The filtered, ordered, capped row set of `_query_flights_for_date`
(before the SELECT projection to three columns). -/
def queryRows (cfg : CityMap) (table : List FlightRow)
    (origin destination travelDate : String) : List FlightRow :=
  match toIsoFromDdmmyyyy travelDate with
  | none => []
  | some dateIso =>
    let oc := expandIataCandidates cfg origin
    let dc := expandIataCandidates cfg destination
    if oc = [] ∨ dc = [] then []
    else ((table.filter (flightMatches dateIso oc dc)).insertionSort depLE).take 5

/-- `_query_flights_for_date`: result rows are
`(flight_name, departure_time, arrival_time)` triples. -/
def queryFlightsForDate (cfg : CityMap) (table : List FlightRow)
    (origin destination travelDate : String) :
    List (String × Option String × Option String) :=
  (queryRows cfg table origin destination travelDate).map
    (fun r => (r.flight_name, r.departure_time, r.arrival_time))

/-- One rendered offer line (`f"{i}. {fname}  |  Dep: {dep}  →  Arr: {arr}"`). -/
def flightLine (i : Nat) (t : String × Option String × Option String) : String :=
  toString i ++ ". " ++ t.1 ++ "  |  Dep: " ++ showPyOpt t.2.1 ++ "  →  Arr: " ++
    showPyOpt t.2.2

/-- `_format_flights_message`. -/
def formatFlightsMessage (rows : List (String × Option String × Option String))
    (origin destination dateStr : String) : String :=
  if rows = [] then
    "⚠️ No flights found for " ++ origin ++ " → " ++ destination ++ " on " ++ dateStr ++ "."
  else
    String.intercalate "\n"
      (("✈️ Flights for " ++ origin ++ " → " ++ destination ++ " on " ++ dateStr ++ ":") ::
        rows.enum.map (fun q => flightLine (q.1 + 1) q.2))

/-! ## Country validation and the route text parser -/

/-- `validate_country`: truthy and, stripped and title-cased, a key of the
city table. -/
def validateCountry (cfg : CityMap) (country : String) : Bool :=
  country ≠ "" && (cfg.lookup (pyTitle (pyStrip country))).isSome

/-- `validate_country` applied to a possibly-`None` value (`bool(None)` is
falsy, short-circuiting the membership test). -/
def validateCountryOpt (cfg : CityMap) (v : Option String) : Bool :=
  match v with
  | none => false
  | some c => validateCountry cfg c

def strLeP (a b : String) : Prop := strLe a b = true

instance : DecidableRel strLeP := fun a b => by
  unfold strLeP
  infer_instance

/-- `format_country_list`: the sorted supported cities, one bullet per line. -/
def formatCountryList (cfg : CityMap) : String :=
  String.intercalate "\n"
    ((((cfg.map Prod.fst).dedup).insertionSort strLeP).map (fun city => "• " ++ city))

/-- `_normalize_country`: strip and title-case a truthy value, pass falsy
values through unchanged. -/
def normalizeCountry (v : Option String) : Option String :=
  match v with
  | none => none
  | some s => if s = "" then some s else some (pyTitle (pyStrip s))

/-- Whitespace-separated tokens of a string. -/
def tokensOf (s : String) : List String :=
  ((splitOnChar ' ' (s.data.map (fun c => if c.isWhitespace then ' ' else c))).map
    String.mk).filter (fun t => t ≠ "")

/-- Split a token list at the first case-insensitive "to" token. -/
def splitFirstTo : List String → Option (List String × List String)
  | [] => none
  | t :: rest =>
    if pyLower t = "to" then some ([], rest)
    else
      match splitFirstTo rest with
      | some (pre, post) => some (t :: pre, post)
      | none => none

/-- The bare pattern `^\s*(.+?)\s+to\s+(.+?)\s*$` (case-insensitive,
non-greedy: the split happens at the first whitespace-delimited "to" with
nonempty text on both sides), with both sides title-cased. -/
def bareToPattern (ts : List String) : Option String × Option String :=
  match splitFirstTo ts with
  | some (pre, post) =>
    if pre = [] ∨ post = [] then (none, none)
    else (some (pyTitle (String.intercalate " " pre)),
          some (pyTitle (String.intercalate " " post)))
  | none => (none, none)

/-- `_parse_from_to`: try `from <A> to <B>` first, then bare `<A> to <B>`;
`(none, none)` when neither pattern matches. -/
def parseFromTo (text : Option String) : Option String × Option String :=
  match text with
  | none => (none, none)
  | some t =>
    let ts := tokensOf (pyStrip t)
    match ts with
    | t0 :: rest =>
      if pyLower t0 = "from" then
        match bareToPattern rest with
        | (some o, some d) => (some o, some d)
        | _ => bareToPattern ts
      else bareToPattern ts
    | [] => (none, none)

/-! ## Patch types (validator return dicts)

Each validator returns a partial slot patch: a field value of `some v` means
the key is present in the returned dict with value `v` (`some none` is an
explicit `None`, clearing the slot); `none` means the key is absent. -/

/-- Patch of `validate_origin` / `validate_destination`. -/
structure RoutePatch where
  origin : Option (Option String) := none
  destination : Option (Option String) := none
  messages : List String := []
deriving Repr, DecidableEq

def samePlacesMsg : String :=
  "Origin and destination cannot be the same. Please choose different places."

def diffOriginMsg : String :=
  "Origin and destination cannot be the same. Please choose a different origin."

def diffDestinationMsg : String :=
  "Origin and destination cannot be the same. Please choose a different destination."

def gotItMsg (o d : String) : String :=
  "Got it ✅ Origin: " ++ o ++ ", Destination: " ++ d ++ "."

def notSupportedMsg (cfg : CityMap) (field : String) (value : Option String) : String :=
  "Sorry, \x27" ++ showPyOpt value ++ "\x27 is not supported.\nChoose " ++ field ++
    " from:\n" ++ formatCountryList cfg

/-- The single-value fallthrough of `validate_origin` (raw value as one
origin: normalize, check support, check against the opposite slot). -/
def validateOriginSingle (cfg : CityMap) (value destSlot : Option String) : RoutePatch :=
  let norm := normalizeCountry value
  if validateCountryOpt cfg norm then
    if truthyStr destSlot && decide (norm = normalizeCountry destSlot) then
      { origin := some none, messages := [diffOriginMsg] }
    else
      { origin := some norm }
  else
    { origin := some none, messages := [notSupportedMsg cfg "origin" value] }

/-- `validate_origin`. -/
def validate_origin (cfg : CityMap) (value destSlot : Option String) : RoutePatch :=
  match parseFromTo value with
  | (some o, some d) =>
    if validateCountry cfg o && validateCountry cfg d then
      if o = d then
        { origin := some none, messages := [samePlacesMsg] }
      else
        { origin := some (some o), destination := some (some d),
          messages := [gotItMsg o d] }
    else validateOriginSingle cfg value destSlot
  | _ => validateOriginSingle cfg value destSlot

/-- The single-value path of `validate_destination` (taken when the parse
found no destination). -/
def validateDestinationSingle (cfg : CityMap) (value originSlot : Option String) :
    RoutePatch :=
  let norm := normalizeCountry value
  if validateCountryOpt cfg norm then
    if truthyStr originSlot && decide (norm = normalizeCountry originSlot) then
      { destination := some none, messages := [diffDestinationMsg] }
    else
      { destination := some norm }
  else
    { destination := some none, messages := [notSupportedMsg cfg "destination" value] }

/-- `validate_destination`. -/
def validate_destination (cfg : CityMap) (value originSlot : Option String) : RoutePatch :=
  match parseFromTo value with
  | (some o, some d) =>
    if validateCountry cfg o && validateCountry cfg d then
      if o = d then
        { destination := some none, messages := [samePlacesMsg] }
      else
        { origin := some (some o), destination := some (some d),
          messages := [gotItMsg o d] }
    else
      if validateCountry cfg d then
        if truthyStr originSlot && decide (normalizeCountry originSlot = some d) then
          { destination := some none, messages := [diffDestinationMsg] }
        else
          { destination := some (some d) }
      else
        { destination := some none, messages := [notSupportedMsg cfg "destination" value] }
  | _ => validateDestinationSingle cfg value originSlot

/-! ## Date validators and the dynamic required-slot policy -/

def dateFormatMsg : String :=
  "❌ Please enter the date in DD/MM/YYYY format (e.g., 15/09/2025)."

def dateInvalidMsg : String :=
  "❌ Invalid date. Please check the day, month, and year."

def datePastMsg : String :=
  "⚠️ Past dates aren’t allowed. Please choose a future date."

def returnPastMsg : String :=
  "❌ Return date cannot be in the past. Please choose a future date."

def returnBeforeTravelMsg : String :=
  "❌ Return date cannot be before the travel date. Please choose a valid return date."

/-- Patch of `validate_travel_date`. -/
structure TravelDatePatch where
  travel_date : Option (Option String) := none
  no_flights : Option Bool := none
  messages : List String := []
deriving Repr, DecidableEq

/-- `required_slots` of the form: a truthy `no_flights` empties the remaining
slot list, ending the form regardless of the declared slots. -/
def required_slots (domainSlots : List String) (noFlights : Option Bool) : List String :=
  if noFlights = some true then [] else domainSlots

/-- `validate_travel_date`: strict format, calendar validity, no past dates;
then, only when both places are truthy, the flight lookup sets the soft
`no_flights` signal (true on an empty result, false plus the rendered offer
list otherwise). `today` stands for `datetime.utcnow().date()`. -/
def validate_travel_date (cfg : CityMap) (table : List FlightRow) (today : PDate)
    (value originSlot destSlot : Option String) : TravelDatePatch :=
  let raw := pyOrStr value ""
  if !ddmmyyyyMatch raw then
    { travel_date := some none, messages := [dateFormatMsg] }
  else
    match parseSlashDate raw with
    | none => { travel_date := some none, messages := [dateInvalidMsg] }
    | some dt =>
      if dateLt dt today then
        { travel_date := some none, messages := [datePastMsg] }
      else
        if !truthyStr originSlot || !truthyStr destSlot then
          { travel_date := some (some raw) }
        else
          let origin := pyOrStr originSlot ""
          let destination := pyOrStr destSlot ""
          let rows := queryFlightsForDate cfg table origin destination raw
          if rows = [] then
            { travel_date := some (some raw), no_flights := some true }
          else
            { travel_date := some (some raw), no_flights := some false,
              messages := [formatFlightsMessage rows origin destination raw] }

/-- Patch of `validate_return_date`. -/
structure ReturnDatePatch where
  return_date : Option (Option String) := none
  messages : List String := []
deriving Repr, DecidableEq

/-- `validate_return_date`: strict format; parse the already-collected travel
date (if truthy) and the new value, any ValueError rejects; reject a return
before `today` and a return before the travel date; accept unchanged. -/
def validate_return_date (today : PDate) (value travelSlot : Option String) :
    ReturnDatePatch :=
  let raw := pyOrStr value ""
  if !ddmmyyyyMatch raw then
    { return_date := some none, messages := [dateFormatMsg] }
  else
    let depParsed : Option (Option PDate) :=
      if truthyStr travelSlot then
        match parseSlashDate (pyOrStr travelSlot "") with
        | some dp => some (some dp)
        | none => none
      else some none
    match depParsed with
    | none => { return_date := some none, messages := [dateInvalidMsg] }
    | some depDt =>
      match parseSlashDate raw with
      | none => { return_date := some none, messages := [dateInvalidMsg] }
      | some retDt =>
        if dateLt retDt today then
          { return_date := some none, messages := [returnPastMsg] }
        else
          match depDt with
          | some dep =>
            if dateLt retDt dep then
              { return_date := some none, messages := [returnBeforeTravelMsg] }
            else { return_date := some (some raw) }
          | none => { return_date := some (some raw) }

/-! ## The slot snapshot and the passenger loop -/

/-- The fields of the dialogue snapshot this engine reads and patches. -/
structure Snapshot where
  origin : Option String := none
  destination : Option String := none
  travel_date : Option String := none
  return_date : Option String := none
  class_selection : Option String := none
  passenger_name : Option String := none
  travel_count : Option Nat := none
  expected_passengers : Option Nat := none
  current_passenger_index : Option Nat := none
  current_passenger_name : Option String := none
  current_passenger_phone : Option String := none
  current_passenger_email : Option String := none
  current_passenger_seat_preference : Option String := none
  passengers : Option String := none
  no_flights : Option Bool := none
deriving Repr, DecidableEq

/-- Patch of `validate_travel_count` (loop initialization). -/
structure TravelCountPatch where
  travel_count : Option (Option Nat) := none
  expected_passengers : Option (Option Nat) := none
  current_passenger_index : Option (Option Nat) := none
  passengers : Option (Option String) := none
  current_passenger_name : Option (Option String) := none
  current_passenger_phone : Option (Option String) := none
  current_passenger_email : Option (Option String) := none
  current_passenger_seat_preference : Option (Option String) := none
  messages : List String := []
deriving Repr, DecidableEq

def travelCountMsg : String :=
  "Please enter a valid number of travelers (e.g., 1, 2, 3)."

/-- `validate_travel_count`: a truthy all-digit value of at least 1 patches
the count and initializes the passenger loop (`expected_passengers = n`,
index 1, empty serialized accumulator, cleared working fields). -/
def validate_travel_count (value : Option String) : TravelCountPatch :=
  match value with
  | some s =>
    if s ≠ "" && allDigits (pyStrip s) then
      let n := digitsToNat (pyStrip s).data
      if 1 ≤ n then
        { travel_count := some (some n),
          expected_passengers := some (some n),
          current_passenger_index := some (some 1),
          passengers := some (some (dumpsPassengers [])),
          current_passenger_name := some none,
          current_passenger_phone := some none,
          current_passenger_email := some none,
          current_passenger_seat_preference := some none }
      else { travel_count := some none, messages := [travelCountMsg] }
    else { travel_count := some none, messages := [travelCountMsg] }
  | none => { travel_count := some none, messages := [travelCountMsg] }

/-- `validate_current_passenger_name`: truthy value with nonempty strip is
stored stripped; otherwise re-prompt using the current index. -/
def validate_current_passenger_name (value : Option String) (idxSlot : Option Nat) :
    Option String × List String :=
  match value with
  | some s =>
    if s ≠ "" && pyStrip s ≠ "" then (some (pyStrip s), [])
    else (none, ["Please enter passenger " ++ toString (pyOrNat idxSlot 1) ++
      "\x27s full name."])
  | none => (none, ["Please enter passenger " ++ toString (pyOrNat idxSlot 1) ++
      "\x27s full name."])

/-- Full match of the primary phone pattern `\+?[1-9]\d{7,14}`. -/
def phonePrimaryCore (l : List Char) : Bool :=
  match l with
  | [] => false
  | d :: ds =>
    ('1' ≤ d && d ≤ '9') && ds.all Char.isDigit && 7 ≤ ds.length && ds.length ≤ 14

def phonePrimary (l : List Char) : Bool :=
  match l with
  | '+' :: rest => phonePrimaryCore rest
  | _ => phonePrimaryCore l

/-- Full match of the fallback phone pattern `[0-9\-+ ]{7,15}`. -/
def phoneFallback (l : List Char) : Bool :=
  l.all (fun c => c.isDigit || c == '-' || c == '+' || c == ' ') &&
    7 ≤ l.length && l.length ≤ 15

def phoneMsg (idxSlot : Option Nat) : String :=
  "Please enter a valid phone number for passenger " ++ toString (pyOrNat idxSlot 1) ++
    " (e.g., +15551234567)."

/-- `validate_current_passenger_phone`: a truthy value matching either phone
pattern is stored unchanged; otherwise re-prompt. -/
def validate_current_passenger_phone (value : Option String) (idxSlot : Option Nat) :
    Option String × List String :=
  match value with
  | some s =>
    if s ≠ "" && (phonePrimary s.data || phoneFallback s.data) then (some s, [])
    else (none, [phoneMsg idxSlot])
  | none => (none, [phoneMsg idxSlot])

/-- Full match of the email pattern `[^@\s]+@[^@\s]+\.[^@\s]+`: exactly one
`@`, no whitespace, nonempty local part, and a dot in the domain that is
neither its first nor its last character. -/
def emailMatch (s : String) : Bool :=
  match (splitOnChar '@' s.data).map String.mk with
  | [a, b] =>
    a ≠ "" && a.data.all (fun c => !c.isWhitespace) &&
    b.data.all (fun c => !c.isWhitespace) && ((b.data.drop 1).dropLast).contains '.'
  | _ => false

def emailMsg (idxSlot : Option Nat) : String :=
  "Please enter a valid email for passenger " ++ toString (pyOrNat idxSlot 1) ++
    " (e.g., name@example.com)."

/-- `validate_current_passenger_email`: a truthy value whose strip matches the
email pattern is stored stripped; otherwise re-prompt. -/
def validate_current_passenger_email (value : Option String) (idxSlot : Option Nat) :
    Option String × List String :=
  match value with
  | some s =>
    if s ≠ "" && emailMatch (pyStrip s) then (some (pyStrip s), [])
    else (none, [emailMsg idxSlot])
  | none => (none, [emailMsg idxSlot])

/-- Patch of `validate_current_passenger_seat_preference`. -/
structure SeatPatch where
  passengers : Option (Option String) := none
  current_passenger_index : Option (Option Nat) := none
  current_passenger_name : Option (Option String) := none
  current_passenger_phone : Option (Option String) := none
  current_passenger_email : Option (Option String) := none
  current_passenger_seat_preference : Option (Option String) := none
  messages : List String := []
deriving Repr, DecidableEq

def seatPromptMsg (idxSlot : Option Nat) : String :=
  "Please choose seat for passenger " ++ toString (pyOrNat idxSlot 1) ++
    ": window, aisle, or middle."

def nextPassengerMsg (nextIdx : Nat) : String :=
  "Got it ✅. Now, please provide details for passenger " ++ toString nextIdx ++ "."

/-- `validate_current_passenger_seat_preference`: on a valid seat, append the
working fields (when all truthy) to the deserialized accumulator (malformed
content recovered as empty); then either advance the loop (index `< expected`:
bump the index, clear the four working fields) or finish (keep the seat
populated as the completion sentinel). -/
def validate_current_passenger_seat_preference (value : Option String) (s : Snapshot) :
    SeatPatch :=
  let v := pyStrip (pyLower (pyOrStr value ""))
  if v = "window" ∨ v = "aisle" ∨ v = "middle" then
    let name := s.current_passenger_name
    let phone := s.current_passenger_phone
    let email := s.current_passenger_email
    let idx := pyOrNat s.current_passenger_index 1
    let expected := pyOrNat s.expected_passengers 1
    let passengersJson := pyOrStr s.passengers "[]"
    let ps0 := (loadsPassengers passengersJson).getD []
    let ps1 :=
      if truthyStr name && truthyStr phone && truthyStr email then
        ps0 ++ [⟨name.getD "", phone.getD "", email.getD "", v⟩]
      else ps0
    if idx < expected then
      { passengers := some (some (dumpsPassengers ps1)),
        current_passenger_index := some (some (idx + 1)),
        current_passenger_name := some none,
        current_passenger_phone := some none,
        current_passenger_email := some none,
        current_passenger_seat_preference := some none,
        messages := [nextPassengerMsg (idx + 1)] }
    else
      { passengers := some (some (dumpsPassengers ps1)),
        current_passenger_seat_preference := some (some v) }
  else
    { current_passenger_seat_preference := some none,
      messages := [seatPromptMsg s.current_passenger_index] }

/-! ### Applying patches to a snapshot -/

/-- Apply one optional patch entry (`some v` overwrites, `none` leaves). -/
def applyKey {α : Type} (patch : Option (Option α)) (old : Option α) : Option α :=
  match patch with
  | some v => v
  | none => old

def applyTravelCountPatch (s : Snapshot) (p : TravelCountPatch) : Snapshot :=
  { s with
    travel_count := applyKey p.travel_count s.travel_count,
    expected_passengers := applyKey p.expected_passengers s.expected_passengers,
    current_passenger_index := applyKey p.current_passenger_index s.current_passenger_index,
    passengers := applyKey p.passengers s.passengers,
    current_passenger_name := applyKey p.current_passenger_name s.current_passenger_name,
    current_passenger_phone := applyKey p.current_passenger_phone s.current_passenger_phone,
    current_passenger_email := applyKey p.current_passenger_email s.current_passenger_email,
    current_passenger_seat_preference :=
      applyKey p.current_passenger_seat_preference s.current_passenger_seat_preference }

def applySeatPatch (s : Snapshot) (p : SeatPatch) : Snapshot :=
  { s with
    passengers := applyKey p.passengers s.passengers,
    current_passenger_index := applyKey p.current_passenger_index s.current_passenger_index,
    current_passenger_name := applyKey p.current_passenger_name s.current_passenger_name,
    current_passenger_phone := applyKey p.current_passenger_phone s.current_passenger_phone,
    current_passenger_email := applyKey p.current_passenger_email s.current_passenger_email,
    current_passenger_seat_preference :=
      applyKey p.current_passenger_seat_preference s.current_passenger_seat_preference }

def applyNamePatch (s : Snapshot) (v : Option String) : Snapshot :=
  { s with current_passenger_name := v }

def applyPhonePatch (s : Snapshot) (v : Option String) : Snapshot :=
  { s with current_passenger_phone := v }

def applyEmailPatch (s : Snapshot) (v : Option String) : Snapshot :=
  { s with current_passenger_email := v }

/-! ## The booking store (`bookings.db`) -/

/-- The column list of the INSERT in `_save_booking` (10 columns). -/
def bookingsInsertColumns : List String :=
  ["origin", "destination", "travel_date", "return_date", "seat_preference",
   "class_selection", "passenger_name", "phone_number", "travel_count", "created_at"]

/-- The VALUES parameter list of the same INSERT (12 named parameters,
including the stale `:flight_name` and `:flight_schedule_time`). -/
def bookingsInsertParams : List String :=
  [":origin", ":destination", ":travel_date", ":flight_name", ":flight_schedule_time",
   ":return_date", ":seat_preference", ":class_selection", ":passenger_name",
   ":phone_number", ":travel_count", ":created_at"]

/-- The row dict `action_submit_booking` assembles for `_save_booking`. -/
structure BookingRow where
  origin : String
  destination : String
  travel_date : String
  return_date : String
  seat_preference : String
  class_selection : String
  passenger_name : String
  phone_number : String
  travel_count : Nat
deriving Repr, DecidableEq

/-- The persistent store: inserted booking rows (rowid = position + 1) and
passenger rows tagged with their booking id. -/
structure BookingsDb where
  bookingRows : List BookingRow := []
  passengerRows : List (Nat × Passenger) := []
deriving Repr, DecidableEq

/-- `_save_booking`: sqlite prepares the INSERT first; a mismatch between the
column count and the VALUES count is an OperationalError raised before any
write, otherwise the row is inserted and `lastrowid` returned. -/
def saveBooking (row : BookingRow) (db : BookingsDb) : Except String (Nat × BookingsDb) :=
  if bookingsInsertParams.length = bookingsInsertColumns.length then
    let db2 := { db with bookingRows := db.bookingRows ++ [row] }
    .ok (db2.bookingRows.length, db2)
  else
    .error (toString bookingsInsertParams.length ++ " values for " ++
      toString bookingsInsertColumns.length ++ " columns")

/-- `_save_passengers`: explicit no-op on an empty list, otherwise one
inserted row per passenger, each referencing the booking id. -/
def savePassengers (bookingId : Nat) (ps : List Passenger) (db : BookingsDb) : BookingsDb :=
  if ps = [] then db
  else { db with passengerRows := db.passengerRows ++ ps.map (fun p => (bookingId, p)) }

/-! ## `action_submit_booking` -/

/-- Dialogue events returned by the submit action. -/
inductive Event
  | slotSet (name : String) (value : Option String)
  | restarted
deriving Repr, DecidableEq

/-- The fifteen slot resets returned on the persistence path. -/
def submitResetEvents : List Event :=
  [.slotSet "origin" none, .slotSet "destination" none, .slotSet "travel_date" none,
   .slotSet "return_date" none, .slotSet "class_selection" none,
   .slotSet "passenger_name" none, .slotSet "travel_count" none,
   .slotSet "expected_passengers" none, .slotSet "current_passenger_index" none,
   .slotSet "current_passenger_name" none, .slotSet "current_passenger_phone" none,
   .slotSet "current_passenger_email" none,
   .slotSet "current_passenger_seat_preference" none, .slotSet "passengers" none,
   .slotSet "no_flights" none]

/-- The apology of the `no_flights` early exit. -/
def apologyMessage (origin destination travelDate : String) : String :=
  "😔 Sorry, no flights for " ++ origin ++ " → " ++ destination ++ " on " ++
    travelDate ++ ". Please change your travel date or destination and try again."

/-- The booking row assembled from the snapshot, with "N/A" for every falsy
optional field (and 1 for a falsy traveler count). -/
def assembleRow (s : Snapshot) : BookingRow :=
  { origin := pyOrStr s.origin "N/A",
    destination := pyOrStr s.destination "N/A",
    travel_date := pyOrStr s.travel_date "N/A",
    return_date := pyOrStr s.return_date "N/A",
    seat_preference := "N/A",
    class_selection := pyOrStr s.class_selection "N/A",
    passenger_name := pyOrStr s.passenger_name "N/A",
    phone_number := "N/A",
    travel_count := pyOrNat s.travel_count 1 }

def savedOkMessage (bookingId n : Nat) : String :=
  "💾 Booking #" ++ toString bookingId ++ " saved with " ++ toString n ++ " passenger(s)."

def savedFailMessage (e : String) : String :=
  "⚠️ Could not save booking to database: " ++ e

/-- One rendered passenger line of the confirmation. -/
def paxLine (i : Nat) (p : Passenger) : String :=
  "   " ++ toString (i + 1) ++ ". " ++ p.name ++ " | " ++ p.phone ++ " | " ++
    p.email ++ " | Seat: " ++ p.seat

def paxLinesText (ps : List Passenger) : String :=
  let joined := String.intercalate "\n" (ps.enum.map (fun q => paxLine q.1 q.2))
  if joined = "" then "   (no additional passengers)" else joined

/-- The confirmation text, enumerating every booking field, the per-passenger
lines, and the save outcome line. -/
def confirmMessage (row : BookingRow) (ps : List Passenger) (savedMsg : String) : String :=
  "✅ Booking Confirmed!\n\n" ++
  "📍 From → To: " ++ row.origin ++ " → " ++ row.destination ++ "\n" ++
  "📅 Date: " ++ row.travel_date ++ " → " ++ row.return_date ++ "\n" ++
  "🎫 Class: " ++ row.class_selection ++ "\n" ++
  "👤 Primary Contact: " ++ row.passenger_name ++ "\n" ++
  "👥 Travelers: " ++ toString row.travel_count ++ "\n" ++
  "🪑 Seats: per passenger below\n" ++
  "📜 Passenger List:\n" ++ paxLinesText ps ++ "\n\n" ++ savedMsg

/-- What a run of the submit action produced: user-facing messages, returned
dialogue events, and the persistence attempts made (row plus passenger list
handed to the save helpers inside the try block). -/
structure SubmitResult where
  messages : List String
  events : List Event
  saveCalls : List (BookingRow × List Passenger)
deriving Repr, DecidableEq

/-- `ActionSubmitBooking.run`. The persistence outcome (the try block around
`_save_booking` / `_save_passengers`) is a parameter: `.ok id` is a
successful save returning the booking id, `.error e` any raised exception. -/
def actionSubmitBookingRun (s : Snapshot)
    (persist : BookingRow → List Passenger → Except String Nat) : SubmitResult :=
  if s.no_flights = some true then
    { messages := [apologyMessage (pyOrStr s.origin "N/A") (pyOrStr s.destination "N/A")
        (pyOrStr s.travel_date "N/A")],
      events := [.restarted],
      saveCalls := [] }
  else
    let row := assembleRow s
    let ps := (loadsPassengers (pyOrStr s.passengers "[]")).getD []
    let savedMsg :=
      match persist row ps with
      | .ok bookingId => savedOkMessage bookingId ps.length
      | .error e => savedFailMessage e
    { messages := [confirmMessage row ps savedMsg],
      events := submitResetEvents,
      saveCalls := [(row, ps)] }

/-! ## Claims -/

/-- C1: the claim says `_save_booking` inserts exactly one row and returns its
booking id. In the code the INSERT names 10 columns but its VALUES clause
supplies 12 named parameters (the stale `:flight_name` and
`:flight_schedule_time`), so sqlite rejects the statement at prepare time for
every row and nothing is ever inserted: `saveBooking` always fails with
"12 values for 10 columns". The `savePassengers` half of the claim does hold:
it is a no-op on an empty list and otherwise writes one row per passenger,
each referencing the booking id, touching no booking rows. -/
theorem claim_C1 :
    (∀ (row : BookingRow) (db : BookingsDb),
      saveBooking row db = .error "12 values for 10 columns") ∧
    bookingsInsertColumns.length = 10 ∧
    bookingsInsertParams.length = 12 ∧
    (∀ (bookingId : Nat) (db : BookingsDb), savePassengers bookingId [] db = db) ∧
    (∀ (bookingId : Nat) (ps : List Passenger) (db : BookingsDb),
      (savePassengers bookingId ps db).passengerRows =
        db.passengerRows ++ ps.map (fun p => (bookingId, p))) ∧
    (∀ (bookingId : Nat) (ps : List Passenger) (db : BookingsDb),
      (savePassengers bookingId ps db).bookingRows = db.bookingRows) := by
  refine ⟨fun row db => rfl, rfl, rfl, fun bookingId db => rfl, ?_, ?_⟩
  · intro bookingId ps db
    cases ps with
    | nil => simp [savePassengers]
    | cons p tl => simp [savePassengers]
  · intro bookingId ps db
    cases ps with
    | nil => simp [savePassengers]
    | cons p tl => simp [savePassengers]

/-- C3: a truthy `no_flights` makes the submit action emit exactly the apology
referencing origin, destination and travel date, make no persistence call at
all, and return a single `Restarted` event. -/
theorem claim_C3 (s : Snapshot) (persist : BookingRow → List Passenger → Except String Nat)
    (h : s.no_flights = some true) :
    actionSubmitBookingRun s persist =
      { messages := [apologyMessage (pyOrStr s.origin "N/A") (pyOrStr s.destination "N/A")
          (pyOrStr s.travel_date "N/A")],
        events := [.restarted],
        saveCalls := [] } := by
  unfold actionSubmitBookingRun
  rw [if_pos h]

theorem claim_C3_witness :
    actionSubmitBookingRun
        { no_flights := some true, origin := some "Paris", destination := some "Rome",
          travel_date := some "15/09/2025" }
        (fun _ _ => .ok 1) =
      { messages := [apologyMessage "Paris" "Rome" "15/09/2025"],
        events := [.restarted],
        saveCalls := [] } := by
  have h := claim_C3
    { no_flights := some true, origin := some "Paris", destination := some "Rome",
      travel_date := some "15/09/2025" }
    (fun _ _ => .ok 1) rfl
  exact h

/-- C2: when `no_flights` is not true, the assembled booking row carries the
explicit "N/A" sentinel for every unset optional field; a persistence failure
is folded as a warning into the confirmation message, which is still rendered
as the single message of the turn (exactly as the success path renders its
confirmation); and both the success and the failure path return exactly the
fifteen `SlotSet(slot, None)` reset events. -/
theorem claim_C2 (s : Snapshot) (persist : BookingRow → List Passenger → Except String Nat)
    (h : s.no_flights ≠ some true) :
    (s.origin = none → (assembleRow s).origin = "N/A") ∧
    (s.destination = none → (assembleRow s).destination = "N/A") ∧
    (s.travel_date = none → (assembleRow s).travel_date = "N/A") ∧
    (s.return_date = none → (assembleRow s).return_date = "N/A") ∧
    (s.class_selection = none → (assembleRow s).class_selection = "N/A") ∧
    (s.passenger_name = none → (assembleRow s).passenger_name = "N/A") ∧
    (assembleRow s).seat_preference = "N/A" ∧
    (assembleRow s).phone_number = "N/A" ∧
    (∀ e, persist (assembleRow s) ((loadsPassengers (pyOrStr s.passengers "[]")).getD []) =
        .error e →
      (actionSubmitBookingRun s persist).messages =
        [confirmMessage (assembleRow s)
          ((loadsPassengers (pyOrStr s.passengers "[]")).getD [])
          (savedFailMessage e)]) ∧
    (∀ bookingId,
      persist (assembleRow s) ((loadsPassengers (pyOrStr s.passengers "[]")).getD []) =
        .ok bookingId →
      (actionSubmitBookingRun s persist).messages =
        [confirmMessage (assembleRow s)
          ((loadsPassengers (pyOrStr s.passengers "[]")).getD [])
          (savedOkMessage bookingId
            ((loadsPassengers (pyOrStr s.passengers "[]")).getD []).length)]) ∧
    (actionSubmitBookingRun s persist).events = submitResetEvents ∧
    submitResetEvents.length = 15 ∧
    (∀ ev ∈ submitResetEvents, ∃ slotName, ev = .slotSet slotName none) := by
  refine ⟨fun h0 => by simp [assembleRow, h0, pyOrStr],
    fun h0 => by simp [assembleRow, h0, pyOrStr],
    fun h0 => by simp [assembleRow, h0, pyOrStr],
    fun h0 => by simp [assembleRow, h0, pyOrStr],
    fun h0 => by simp [assembleRow, h0, pyOrStr],
    fun h0 => by simp [assembleRow, h0, pyOrStr],
    rfl, rfl, ?_, ?_, ?_, rfl, ?_⟩
  · intro e he
    unfold actionSubmitBookingRun
    rw [if_neg h]
    simp only [he]
  · intro bookingId he
    unfold actionSubmitBookingRun
    rw [if_neg h]
    simp only [he]
  · unfold actionSubmitBookingRun
    rw [if_neg h]
  · intro ev hev
    simp only [submitResetEvents, List.mem_cons] at hev
    rcases hev with h0 | h0 | h0 | h0 | h0 | h0 | h0 | h0 | h0 | h0 | h0 | h0 | h0 | h0 | h0 | h0 <;>
      first
      | exact ⟨_, h0⟩
      | exact absurd h0 (List.not_mem_nil _)

theorem claim_C2_witness :
    (actionSubmitBookingRun {} (fun _ _ => .error "disk I/O error")).messages =
      [confirmMessage (assembleRow {})
        ((loadsPassengers (pyOrStr (Snapshot.passengers {}) "[]")).getD [])
        (savedFailMessage "disk I/O error")] ∧
    (actionSubmitBookingRun {} (fun _ _ => .error "disk I/O error")).events =
      submitResetEvents ∧
    (assembleRow {}).origin = "N/A" := by
  obtain ⟨h1, _, _, _, _, _, _, _, h9, _, h11, _, _⟩ :=
    claim_C2 {} (fun _ _ => .error "disk I/O error") (by simp)
  exact ⟨h9 "disk I/O error" rfl, h11, h1 rfl⟩

/-- C10: the fallback phone pattern `[0-9\-+ ]{7,15}` accepts any 7-to-15
character string over digits, dashes, pluses and spaces, so an input with no
digit at all (seven dashes) is accepted and patched in unchanged as the
passenger's phone number. -/
theorem claim_C10 :
    (∀ s : String, s ≠ "" →
      s.data.all (fun c => c == '-' || c == '+' || c == ' ') = true →
      7 ≤ s.data.length → s.data.length ≤ 15 →
      validate_current_passenger_phone (some s) none = (some s, [])) ∧
    (∃ s : String, s.data.all (fun c => !c.isDigit) = true ∧
      validate_current_passenger_phone (some s) none = (some s, [])) := by
  constructor
  · intro s h1 h2 h3 h4
    have hfb : phoneFallback s.data = true := by
      simp only [phoneFallback, Bool.and_eq_true, decide_eq_true_eq, List.all_eq_true]
      refine ⟨⟨fun c hc => ?_, h3⟩, h4⟩
      rw [List.all_eq_true] at h2
      have := h2 c hc
      simp only [Bool.or_eq_true, beq_iff_eq] at this
      rcases this with (h | h) | h <;> simp [h]
    simp [validate_current_passenger_phone, h1, hfb]
  · exact ⟨"-------", by decide, by decide⟩

theorem claim_C10_witness :
    validate_current_passenger_phone (some "-------") none = (some "-------", []) ∧
    ("-------" : String).data.all (fun c => !c.isDigit) = true :=
  ⟨claim_C10.1 "-------" (by decide) (by decide) (by decide) (by decide), by decide⟩

/-- Shared characterization of one completion step of the seat validator. -/
theorem validateSeat_step (s : Snapshot) (raw : Option String) (v : String) (l : List Passenger)
    (nm ph em : String) (i n : Nat)
    (hv : pyStrip (pyLower (pyOrStr raw "")) = v)
    (hvalid : v = "window" ∨ v = "aisle" ∨ v = "middle")
    (hnm : s.current_passenger_name = some nm) (hnm2 : nm ≠ "")
    (hph : s.current_passenger_phone = some ph) (hph2 : ph ≠ "")
    (hem : s.current_passenger_email = some em) (hem2 : em ≠ "")
    (hl : loadsPassengers (pyOrStr s.passengers "[]") = some l)
    (hi : pyOrNat s.current_passenger_index 1 = i)
    (hn : pyOrNat s.expected_passengers 1 = n) :
    (i < n →
      validate_current_passenger_seat_preference raw s =
        { passengers := some (some (dumpsPassengers (l ++ [⟨nm, ph, em, v⟩]))),
          current_passenger_index := some (some (i + 1)),
          current_passenger_name := some none,
          current_passenger_phone := some none,
          current_passenger_email := some none,
          current_passenger_seat_preference := some none,
          messages := [nextPassengerMsg (i + 1)] }) ∧
    (i = n →
      validate_current_passenger_seat_preference raw s =
        { passengers := some (some (dumpsPassengers (l ++ [⟨nm, ph, em, v⟩]))),
          current_passenger_seat_preference := some (some v) }) := by
  have htruthy : (truthyStr (some nm) && truthyStr (some ph) && truthyStr (some em)) = true := by
    simp [truthyStr, hnm2, hph2, hem2]
  constructor
  · intro hc
    unfold validate_current_passenger_seat_preference
    rw [hv, if_pos hvalid]
    simp only [hnm, hph, hem, hl, hi, hn, Option.getD_some]
    rw [htruthy, if_pos rfl, if_pos hc]
  · intro hc
    unfold validate_current_passenger_seat_preference
    rw [hv, if_pos hvalid]
    simp only [hnm, hph, hem, hl, hi, hn, Option.getD_some]
    rw [htruthy, if_pos rfl, if_neg (by omega : ¬ i < n)]

/-- C4: a valid seat with all four working fields set appends the passenger to
the accumulator; with the index `i` strictly below the expected count `n` the
patch bumps the index to `i + 1` and clears all four working fields, while
with `i = n` it only patches the accumulator and leaves the seat populated
(the completion sentinel), neither advancing the index nor clearing fields. -/
theorem claim_C4 (s : Snapshot) (raw : Option String) (v : String) (l : List Passenger)
    (nm ph em : String) (i n : Nat)
    (hv : pyStrip (pyLower (pyOrStr raw "")) = v)
    (hvalid : v = "window" ∨ v = "aisle" ∨ v = "middle")
    (hnm : s.current_passenger_name = some nm) (hnm2 : nm ≠ "")
    (hph : s.current_passenger_phone = some ph) (hph2 : ph ≠ "")
    (hem : s.current_passenger_email = some em) (hem2 : em ≠ "")
    (hl : loadsPassengers (pyOrStr s.passengers "[]") = some l)
    (hi : pyOrNat s.current_passenger_index 1 = i)
    (hn : pyOrNat s.expected_passengers 1 = n) :
    (i < n →
      validate_current_passenger_seat_preference raw s =
        { passengers := some (some (dumpsPassengers (l ++ [⟨nm, ph, em, v⟩]))),
          current_passenger_index := some (some (i + 1)),
          current_passenger_name := some none,
          current_passenger_phone := some none,
          current_passenger_email := some none,
          current_passenger_seat_preference := some none,
          messages := [nextPassengerMsg (i + 1)] }) ∧
    (i = n →
      validate_current_passenger_seat_preference raw s =
        { passengers := some (some (dumpsPassengers (l ++ [⟨nm, ph, em, v⟩]))),
          current_passenger_seat_preference := some (some v) }) :=
  validateSeat_step s raw v l nm ph em i n hv hvalid hnm hnm2 hph hph2 hem hem2 hl hi hn

theorem claim_C4_witness :
    validate_current_passenger_seat_preference (some "window")
        { current_passenger_name := some "Alice", current_passenger_phone := some "+15551234567",
          current_passenger_email := some "alice@example.com",
          current_passenger_index := some 1, expected_passengers := some 2,
          passengers := some "[]" } =
      { passengers := some (some (dumpsPassengers
          [⟨"Alice", "+15551234567", "alice@example.com", "window"⟩])),
        current_passenger_index := some (some 2),
        current_passenger_name := some none,
        current_passenger_phone := some none,
        current_passenger_email := some none,
        current_passenger_seat_preference := some none,
        messages := [nextPassengerMsg 2] } ∧
    validate_current_passenger_seat_preference (some "aisle")
        { current_passenger_name := some "Bob", current_passenger_phone := some "+15557654321",
          current_passenger_email := some "bob@example.com",
          current_passenger_index := some 2, expected_passengers := some 2,
          passengers := some (dumpsPassengers
            [⟨"Alice", "+15551234567", "alice@example.com", "window"⟩]) } =
      { passengers := some (some (dumpsPassengers
          [⟨"Alice", "+15551234567", "alice@example.com", "window"⟩,
           ⟨"Bob", "+15557654321", "bob@example.com", "aisle"⟩])),
        current_passenger_seat_preference := some (some "aisle") } := by
  constructor
  · exact (claim_C4
      { current_passenger_name := some "Alice", current_passenger_phone := some "+15551234567",
        current_passenger_email := some "alice@example.com",
        current_passenger_index := some 1, expected_passengers := some 2,
        passengers := some "[]" }
      (some "window") "window" [] "Alice" "+15551234567" "alice@example.com"
      1 2 (by decide) (by decide) rfl (by decide) rfl (by decide) rfl (by decide)
      (by decide) (by decide) (by decide)).1 (by decide)
  · exact (claim_C4
      { current_passenger_name := some "Bob", current_passenger_phone := some "+15557654321",
        current_passenger_email := some "bob@example.com",
        current_passenger_index := some 2, expected_passengers := some 2,
        passengers := some (dumpsPassengers
          [⟨"Alice", "+15551234567", "alice@example.com", "window"⟩]) }
      (some "aisle") "aisle"
      [⟨"Alice", "+15551234567", "alice@example.com", "window"⟩]
      "Bob" "+15557654321" "bob@example.com" 2 2 (by decide) (by decide) rfl (by decide)
      rfl (by decide) rfl (by decide) (by decide) (by decide) (by decide)).2 rfl

/-- The in-progress passenger-loop invariant: the accumulator deserializes
and its length is exactly `current_passenger_index − 1`. -/
def loopInv (s : Snapshot) : Prop :=
  ∃ l, loadsPassengers (pyOrStr s.passengers "[]") = some l ∧
    l.length + 1 = pyOrNat s.current_passenger_index 1

theorem pyOrStr_dumps (v : List Passenger) :
    pyOrStr (some (dumpsPassengers v)) "[]" = dumpsPassengers v := by
  simp [pyOrStr, dumps_ne_empty v]

/-- C5: a valid `travel_count` establishes the invariant (empty accumulator,
index 1) with `expected_passengers = n`; each working-field validator
preserves it; an in-progress seat completion (index `<` expected) preserves it
while bumping the index; and the `index = expected` seat completion leaves an
accumulator of length exactly `expected_passengers` with the seat sentinel
populated. -/
theorem claim_C5 :
    (∀ (s : Snapshot) (raw : String) (n : Nat), raw ≠ "" →
      allDigits (pyStrip raw) = true → digitsToNat (pyStrip raw).data = n → 1 ≤ n →
      loopInv (applyTravelCountPatch s (validate_travel_count (some raw))) ∧
      pyOrNat (applyTravelCountPatch s
        (validate_travel_count (some raw))).current_passenger_index 1 = 1 ∧
      (applyTravelCountPatch s (validate_travel_count (some raw))).expected_passengers =
        some n) ∧
    (∀ (s : Snapshot) (v : Option String), loopInv s →
      loopInv (applyNamePatch s
        (validate_current_passenger_name v s.current_passenger_index).1)) ∧
    (∀ (s : Snapshot) (v : Option String), loopInv s →
      loopInv (applyPhonePatch s
        (validate_current_passenger_phone v s.current_passenger_index).1)) ∧
    (∀ (s : Snapshot) (v : Option String), loopInv s →
      loopInv (applyEmailPatch s
        (validate_current_passenger_email v s.current_passenger_index).1)) ∧
    (∀ (s : Snapshot) (raw : Option String) (v : String),
      pyStrip (pyLower (pyOrStr raw "")) = v →
      (v = "window" ∨ v = "aisle" ∨ v = "middle") →
      truthyStr s.current_passenger_name = true →
      truthyStr s.current_passenger_phone = true →
      truthyStr s.current_passenger_email = true →
      loopInv s →
      (pyOrNat s.current_passenger_index 1 < pyOrNat s.expected_passengers 1 →
        loopInv (applySeatPatch s (validate_current_passenger_seat_preference raw s)) ∧
        pyOrNat (applySeatPatch s
            (validate_current_passenger_seat_preference raw s)).current_passenger_index 1 =
          pyOrNat s.current_passenger_index 1 + 1) ∧
      (pyOrNat s.current_passenger_index 1 = pyOrNat s.expected_passengers 1 →
        (∃ l, loadsPassengers (pyOrStr (applySeatPatch s
            (validate_current_passenger_seat_preference raw s)).passengers "[]") = some l ∧
          l.length = pyOrNat s.expected_passengers 1) ∧
        (validate_current_passenger_seat_preference raw s).current_passenger_seat_preference =
          some (some v))) := by
  refine ⟨?_, ?_, ?_, ?_, ?_⟩
  · intro s raw n h1 h2 h3 h4
    rw [validate_travel_count]
    rw [if_pos (show (decide (raw ≠ "") && allDigits (pyStrip raw)) = true by simp [h1, h2])]
    simp only [h3]
    rw [if_pos h4]
    refine ⟨⟨[], ?_, rfl⟩, rfl, rfl⟩
    rw [show (applyTravelCountPatch s
      { travel_count := some (some n), expected_passengers := some (some n),
        current_passenger_index := some (some 1),
        passengers := some (some (dumpsPassengers [])),
        current_passenger_name := some none, current_passenger_phone := some none,
        current_passenger_email := some none,
        current_passenger_seat_preference := some none }).passengers =
      some (dumpsPassengers []) from rfl]
    rw [pyOrStr_dumps, loads_dumps]
  · intro s v hInv
    exact hInv
  · intro s v hInv
    exact hInv
  · intro s v hInv
    exact hInv
  · intro s raw v hv hvalid hnm hph hem hInv
    obtain ⟨l, hl, hlen⟩ := hInv
    obtain ⟨nm, hnm1, hnm2⟩ : ∃ nm, s.current_passenger_name = some nm ∧ nm ≠ "" := by
      cases h : s.current_passenger_name with
      | none => rw [h] at hnm; simp [truthyStr] at hnm
      | some x =>
        rw [h] at hnm
        simp only [truthyStr, decide_eq_true_eq] at hnm
        exact ⟨x, rfl, hnm⟩
    obtain ⟨ph, hph1, hph2⟩ : ∃ ph, s.current_passenger_phone = some ph ∧ ph ≠ "" := by
      cases h : s.current_passenger_phone with
      | none => rw [h] at hph; simp [truthyStr] at hph
      | some x =>
        rw [h] at hph
        simp only [truthyStr, decide_eq_true_eq] at hph
        exact ⟨x, rfl, hph⟩
    obtain ⟨em, hem1, hem2⟩ : ∃ em, s.current_passenger_email = some em ∧ em ≠ "" := by
      cases h : s.current_passenger_email with
      | none => rw [h] at hem; simp [truthyStr] at hem
      | some x =>
        rw [h] at hem
        simp only [truthyStr, decide_eq_true_eq] at hem
        exact ⟨x, rfl, hem⟩
    have hstep := validateSeat_step s raw v l nm ph em
      (pyOrNat s.current_passenger_index 1) (pyOrNat s.expected_passengers 1)
      hv hvalid hnm1 hnm2 hph1 hph2 hem1 hem2 hl rfl rfl
    constructor
    · intro hc
      rw [hstep.1 hc]
      constructor
      · refine ⟨l ++ [⟨nm, ph, em, v⟩], ?_, ?_⟩
        · rw [show (applySeatPatch s
            { passengers := some (some (dumpsPassengers (l ++ [⟨nm, ph, em, v⟩]))),
              current_passenger_index := some (some (pyOrNat s.current_passenger_index 1 + 1)),
              current_passenger_name := some none, current_passenger_phone := some none,
              current_passenger_email := some none,
              current_passenger_seat_preference := some none,
              messages := [nextPassengerMsg (pyOrNat s.current_passenger_index 1 + 1)]
              }).passengers = some (dumpsPassengers (l ++ [⟨nm, ph, em, v⟩])) from rfl]
          rw [pyOrStr_dumps, loads_dumps]
        · simp only [List.length_append, List.length_singleton]
          rw [show pyOrNat (applySeatPatch s
            { passengers := some (some (dumpsPassengers (l ++ [⟨nm, ph, em, v⟩]))),
              current_passenger_index := some (some (pyOrNat s.current_passenger_index 1 + 1)),
              current_passenger_name := some none, current_passenger_phone := some none,
              current_passenger_email := some none,
              current_passenger_seat_preference := some none,
              messages := [nextPassengerMsg (pyOrNat s.current_passenger_index 1 + 1)]
              }).current_passenger_index 1 =
            pyOrNat s.current_passenger_index 1 + 1 from by
              simp [applySeatPatch, applyKey, pyOrNat]]
          omega
      · simp [applySeatPatch, applyKey, pyOrNat]
    · intro hc
      rw [hstep.2 hc]
      refine ⟨⟨l ++ [⟨nm, ph, em, v⟩], ?_, ?_⟩, rfl⟩
      · rw [show (applySeatPatch s
          { passengers := some (some (dumpsPassengers (l ++ [⟨nm, ph, em, v⟩]))),
            current_passenger_seat_preference := some (some v) }).passengers =
          some (dumpsPassengers (l ++ [⟨nm, ph, em, v⟩])) from rfl]
        rw [pyOrStr_dumps, loads_dumps]
      · simp only [List.length_append, List.length_singleton]
        omega

theorem claim_C5_witness :
    loopInv (applyTravelCountPatch {} (validate_travel_count (some "2"))) ∧
    loopInv (applySeatPatch
      { current_passenger_name := some "Alice", current_passenger_phone := some "+15551234567",
        current_passenger_email := some "alice@example.com",
        current_passenger_index := some 1, expected_passengers := some 2,
        passengers := some "[]" }
      (validate_current_passenger_seat_preference (some "window")
        { current_passenger_name := some "Alice", current_passenger_phone := some "+15551234567",
          current_passenger_email := some "alice@example.com",
          current_passenger_index := some 1, expected_passengers := some 2,
          passengers := some "[]" })) ∧
    (∃ l, loadsPassengers (pyOrStr (applySeatPatch
        { current_passenger_name := some "Bob", current_passenger_phone := some "+15557654321",
          current_passenger_email := some "bob@example.com",
          current_passenger_index := some 2, expected_passengers := some 2,
          passengers := some (dumpsPassengers
            [⟨"Alice", "+15551234567", "alice@example.com", "window"⟩]) }
        (validate_current_passenger_seat_preference (some "aisle")
          { current_passenger_name := some "Bob", current_passenger_phone := some "+15557654321",
            current_passenger_email := some "bob@example.com",
            current_passenger_index := some 2, expected_passengers := some 2,
            passengers := some (dumpsPassengers
              [⟨"Alice", "+15551234567", "alice@example.com", "window"⟩]) })).passengers
        "[]") = some l ∧
      l.length = pyOrNat (Option.some 2) 1) := by
  refine ⟨(claim_C5.1 {} "2" 2 (by decide) (by decide) (by decide) (by decide)).1, ?_, ?_⟩
  · exact ((claim_C5.2.2.2.2
      { current_passenger_name := some "Alice", current_passenger_phone := some "+15551234567",
        current_passenger_email := some "alice@example.com",
        current_passenger_index := some 1, expected_passengers := some 2,
        passengers := some "[]" }
      (some "window") "window" (by decide) (by decide) (by decide) (by decide) (by decide)
      ⟨[], by decide⟩).1 (by decide)).1
  · exact ((claim_C5.2.2.2.2
      { current_passenger_name := some "Bob", current_passenger_phone := some "+15557654321",
        current_passenger_email := some "bob@example.com",
        current_passenger_index := some 2, expected_passengers := some 2,
        passengers := some (dumpsPassengers
          [⟨"Alice", "+15551234567", "alice@example.com", "window"⟩]) }
      (some "aisle") "aisle" (by decide) (by decide) (by decide) (by decide) (by decide)
      ⟨[⟨"Alice", "+15551234567", "alice@example.com", "window"⟩], by decide⟩).2
      (by decide)).1

/-- C6: the conversational date validators accept only DD/MM/YYYY input.
`validate_travel_date` clears the slot with a message on any string not
matching the strict pattern, on any impossible calendar date, and on any date
strictly before today; `validate_return_date` additionally rejects a return
date earlier than the already-collected travel date; a valid future
DD/MM/YYYY date is accepted and returned unchanged in the patch. -/
theorem claim_C6 :
    (∀ (cfg : CityMap) (table : List FlightRow) (today : PDate)
        (value originSlot destSlot : Option String),
      ddmmyyyyMatch (pyOrStr value "") = false →
      validate_travel_date cfg table today value originSlot destSlot =
        { travel_date := some none, messages := [dateFormatMsg] }) ∧
    (∀ (cfg : CityMap) (table : List FlightRow) (today : PDate)
        (value originSlot destSlot : Option String),
      ddmmyyyyMatch (pyOrStr value "") = true →
      parseSlashDate (pyOrStr value "") = none →
      validate_travel_date cfg table today value originSlot destSlot =
        { travel_date := some none, messages := [dateInvalidMsg] }) ∧
    (∀ (cfg : CityMap) (table : List FlightRow) (today : PDate)
        (value originSlot destSlot : Option String) (dt : PDate),
      ddmmyyyyMatch (pyOrStr value "") = true →
      parseSlashDate (pyOrStr value "") = some dt →
      dateLt dt today = true →
      validate_travel_date cfg table today value originSlot destSlot =
        { travel_date := some none, messages := [datePastMsg] }) ∧
    (∀ (cfg : CityMap) (table : List FlightRow) (today : PDate)
        (value originSlot destSlot : Option String) (dt : PDate),
      ddmmyyyyMatch (pyOrStr value "") = true →
      parseSlashDate (pyOrStr value "") = some dt →
      dateLt dt today = false →
      (validate_travel_date cfg table today value originSlot destSlot).travel_date =
        some (some (pyOrStr value ""))) ∧
    (∀ (today : PDate) (value travelSlot : Option String),
      ddmmyyyyMatch (pyOrStr value "") = false →
      validate_return_date today value travelSlot =
        { return_date := some none, messages := [dateFormatMsg] }) ∧
    (∀ (today : PDate) (value : Option String) (rawd : String) (dep ret : PDate),
      ddmmyyyyMatch (pyOrStr value "") = true →
      rawd ≠ "" → parseSlashDate rawd = some dep →
      parseSlashDate (pyOrStr value "") = some ret →
      dateLt ret today = false →
      dateLt ret dep = true →
      validate_return_date today value (some rawd) =
        { return_date := some none, messages := [returnBeforeTravelMsg] }) ∧
    (∀ (today : PDate) (value : Option String) (rawd : String) (dep ret : PDate),
      ddmmyyyyMatch (pyOrStr value "") = true →
      rawd ≠ "" → parseSlashDate rawd = some dep →
      parseSlashDate (pyOrStr value "") = some ret →
      dateLt ret today = false →
      dateLt ret dep = false →
      validate_return_date today value (some rawd) =
        { return_date := some (some (pyOrStr value "")) }) := by
  refine ⟨?_, ?_, ?_, ?_, ?_, ?_, ?_⟩
  · intro cfg table today value originSlot destSlot h
    unfold validate_travel_date
    rw [if_pos (by simp [h])]
  · intro cfg table today value originSlot destSlot h1 h2
    unfold validate_travel_date
    rw [if_neg (by simp [h1]), h2]
  · intro cfg table today value originSlot destSlot dt h1 h2 h3
    unfold validate_travel_date
    rw [if_neg (by simp [h1]), h2]
    simp only [h3, if_true]
  · intro cfg table today value originSlot destSlot dt h1 h2 h3
    unfold validate_travel_date
    rw [if_neg (by simp [h1]), h2]
    simp only [h3, Bool.false_eq_true, if_false]
    by_cases h4 : (!truthyStr originSlot || !truthyStr destSlot) = true
    · rw [if_pos h4]
    · rw [if_neg h4]
      by_cases h5 : queryFlightsForDate cfg table (pyOrStr originSlot "")
          (pyOrStr destSlot "") (pyOrStr value "") = []
      · rw [if_pos h5]
      · rw [if_neg h5]
  · intro today value travelSlot h
    unfold validate_return_date
    rw [if_pos (by simp [h])]
  · intro today value rawd dep ret h1 h2 h3 h4 h5 h6
    unfold validate_return_date
    rw [if_neg (by simp [h1])]
    have hre : pyOrStr (some rawd) "" = rawd := by simp [pyOrStr, h2]
    simp only [truthyStr, hre, h3]
    rw [if_pos (show decide (rawd ≠ "") = true by simp [h2])]
    simp only [h4, h5, h6, Bool.false_eq_true, if_false, if_true]
  · intro today value rawd dep ret h1 h2 h3 h4 h5 h6
    unfold validate_return_date
    rw [if_neg (by simp [h1])]
    have hre : pyOrStr (some rawd) "" = rawd := by simp [pyOrStr, h2]
    simp only [truthyStr, hre, h3]
    rw [if_pos (show decide (rawd ≠ "") = true by simp [h2])]
    simp only [h4, h5, h6, Bool.false_eq_true, if_false, if_true]

theorem claim_C6_witness :
    validate_travel_date [] [] ⟨2025, 1, 1⟩ (some "2025-09-15") none none =
      { travel_date := some none, messages := [dateFormatMsg] } ∧
    validate_travel_date [] [] ⟨2025, 1, 1⟩ (some "31/02/2025") none none =
      { travel_date := some none, messages := [dateInvalidMsg] } ∧
    validate_travel_date [] [] ⟨2025, 1, 1⟩ (some "15/09/2024") none none =
      { travel_date := some none, messages := [datePastMsg] } ∧
    (validate_travel_date [] [] ⟨2025, 1, 1⟩ (some "15/09/2025") none none).travel_date =
      some (some "15/09/2025") ∧
    validate_return_date ⟨2025, 1, 1⟩ (some "15/09/2025") (some "20/09/2025") =
      { return_date := some none, messages := [returnBeforeTravelMsg] } ∧
    validate_return_date ⟨2025, 1, 1⟩ (some "25/09/2025") (some "20/09/2025") =
      { return_date := some (some "25/09/2025") } := by
  refine ⟨?_, ?_, ?_, ?_, ?_, ?_⟩
  · exact claim_C6.1 [] [] ⟨2025, 1, 1⟩ (some "2025-09-15") none none (by decide)
  · exact claim_C6.2.1 [] [] ⟨2025, 1, 1⟩ (some "31/02/2025") none none (by decide) (by decide)
  · exact claim_C6.2.2.1 [] [] ⟨2025, 1, 1⟩ (some "15/09/2024") none none ⟨2024, 9, 15⟩
      (by decide) (by decide) (by decide)
  · exact claim_C6.2.2.2.1 [] [] ⟨2025, 1, 1⟩ (some "15/09/2025") none none ⟨2025, 9, 15⟩
      (by decide) (by decide) (by decide)
  · exact claim_C6.2.2.2.2.2.1 ⟨2025, 1, 1⟩ (some "15/09/2025") "20/09/2025"
      ⟨2025, 9, 20⟩ ⟨2025, 9, 15⟩ (by decide) (by decide) (by decide) (by decide)
      (by decide) (by decide)
  · exact claim_C6.2.2.2.2.2.2 ⟨2025, 1, 1⟩ (some "25/09/2025") "20/09/2025"
      ⟨2025, 9, 20⟩ ⟨2025, 9, 25⟩ (by decide) (by decide) (by decide) (by decide)
      (by decide) (by decide)

/-- C7: on a travel date that passed the format and past-date checks with both
places truthy, an empty flight lookup patches the date together with the soft
`no_flights = true` signal (and no message), a nonempty lookup patches
`no_flights = false` and emits the formatted offer list; and a truthy
`no_flights` slot makes `required_slots` return the empty list regardless of
the declared slots. -/
theorem claim_C7 :
    (∀ (cfg : CityMap) (table : List FlightRow) (today : PDate) (raw : String)
        (dt : PDate) (o d : String),
      ddmmyyyyMatch raw = true →
      parseSlashDate raw = some dt →
      dateLt dt today = false →
      o ≠ "" → d ≠ "" →
      (queryFlightsForDate cfg table o d raw = [] →
        validate_travel_date cfg table today (some raw) (some o) (some d) =
          { travel_date := some (some raw), no_flights := some true, messages := [] }) ∧
      (queryFlightsForDate cfg table o d raw ≠ [] →
        validate_travel_date cfg table today (some raw) (some o) (some d) =
          { travel_date := some (some raw), no_flights := some false,
            messages := [formatFlightsMessage (queryFlightsForDate cfg table o d raw)
              o d raw] })) ∧
    (∀ (domainSlots : List String) (noFlights : Option Bool), noFlights = some true →
      required_slots domainSlots noFlights = []) := by
  constructor
  · intro cfg table today raw dt o d h1 h2 h3 ho hd
    have hne : raw ≠ "" := by
      intro h0
      rw [h0] at h1
      exact absurd h1 (by decide)
    have hraw : pyOrStr (some raw) "" = raw := by simp [pyOrStr, hne]
    constructor
    · intro hq
      unfold validate_travel_date
      rw [hraw]
      rw [if_neg (by simp [h1]), h2]
      simp only [h3, Bool.false_eq_true, if_false]
      rw [if_neg (by simp [truthyStr, ho, hd])]
      simp only [truthyStr, pyOrStr, if_neg ho, if_neg hd, hq, if_true]
    · intro hq
      unfold validate_travel_date
      rw [hraw]
      rw [if_neg (by simp [h1]), h2]
      simp only [h3, Bool.false_eq_true, if_false]
      rw [if_neg (by simp [truthyStr, ho, hd])]
      simp only [truthyStr, pyOrStr, if_neg ho, if_neg hd, if_neg hq]
  · intro domainSlots noFlights h
    unfold required_slots
    rw [if_pos h]

theorem claim_C7_witness :
    validate_travel_date [("Paris", "PAR"), ("Rome", "ROM")] [] ⟨2025, 1, 1⟩
        (some "15/09/2025") (some "Paris") (some "Rome") =
      { travel_date := some (some "15/09/2025"), no_flights := some true,
        messages := [] } ∧
    validate_travel_date [("Paris", "PAR"), ("Rome", "ROM")]
        [⟨"AF1", "2025-09-15", "PAR", "ROM", some "2025-09-15T08:00:00", some "2025-09-15T10:00:00"⟩]
        ⟨2025, 1, 1⟩ (some "15/09/2025") (some "Paris") (some "Rome") =
      { travel_date := some (some "15/09/2025"), no_flights := some false,
        messages := [formatFlightsMessage
          [("AF1", some "2025-09-15T08:00:00", some "2025-09-15T10:00:00")]
          "Paris" "Rome" "15/09/2025"] } ∧
    required_slots ["origin", "destination", "travel_date"] (some true) = [] := by
  refine ⟨?_, ?_, claim_C7.2 ["origin", "destination", "travel_date"] (some true) rfl⟩
  · exact (claim_C7.1 [("Paris", "PAR"), ("Rome", "ROM")] [] ⟨2025, 1, 1⟩ "15/09/2025"
      ⟨2025, 9, 15⟩ "Paris" "Rome" (by decide) (by decide) (by decide) (by decide)
      (by decide)).1 (by decide)
  · have h := (claim_C7.1 [("Paris", "PAR"), ("Rome", "ROM")]
      [⟨"AF1", "2025-09-15", "PAR", "ROM", some "2025-09-15T08:00:00", some "2025-09-15T10:00:00"⟩]
      ⟨2025, 1, 1⟩ "15/09/2025" ⟨2025, 9, 15⟩ "Paris" "Rome" (by decide) (by decide)
      (by decide) (by decide) (by decide)).2 (by decide)
    rw [h]
    rw [show queryFlightsForDate [("Paris", "PAR"), ("Rome", "ROM")]
      [⟨"AF1", "2025-09-15", "PAR", "ROM", some "2025-09-15T08:00:00", some "2025-09-15T10:00:00"⟩]
      "Paris" "Rome" "15/09/2025" =
      [("AF1", some "2025-09-15T08:00:00", some "2025-09-15T10:00:00")] from by decide]

theorem validateCountry_ne_empty (cfg : CityMap) (c : String)
    (h : validateCountry cfg c = true) : c ≠ "" := by
  unfold validateCountry at h
  simp only [Bool.and_eq_true, decide_eq_true_eq] at h
  exact h.1

theorem validateOriginSingle_spec (cfg : CityMap) (value destSlot : Option String)
    (o : String) (ho : (validateOriginSingle cfg value destSlot).origin = some (some o)) :
    (validateOriginSingle cfg value destSlot).destination = none ∧
    validateCountry cfg o = true ∧
    ∀ ds, destSlot = some ds → normalizeCountry (some ds) ≠ some o := by
  unfold validateOriginSingle at ho ⊢
  by_cases hvc : validateCountryOpt cfg (normalizeCountry value) = true
  · rw [if_pos hvc] at ho ⊢
    by_cases hg : (truthyStr destSlot &&
        decide (normalizeCountry value = normalizeCountry destSlot)) = true
    · rw [if_pos hg] at ho
      simp at ho
    · rw [if_neg hg] at ho ⊢
      simp only at ho
      have hno : normalizeCountry value = some o := by
        injection ho
      refine ⟨rfl, ?_, ?_⟩
      · rw [hno] at hvc
        exact hvc
      · intro ds hds heq
        rw [hds] at hg
        simp only [Bool.and_eq_true, decide_eq_true_eq] at hg
        push_neg at hg
        by_cases hempty : ds = ""
        · rw [hempty] at heq
          have : o = "" := by
            simp only [normalizeCountry, if_pos rfl] at heq
            injection heq with h0
            exact h0.symm
          rw [hno] at hvc
          unfold validateCountryOpt validateCountry at hvc
          simp only [Bool.and_eq_true, decide_eq_true_eq] at hvc
          exact hvc.1 this
        · have htr : truthyStr (some ds) = true := by simp [truthyStr, hempty]
          exact hg htr (heq.trans hno.symm).symm
  · rw [if_neg hvc] at ho
    simp at ho

theorem validateDestinationSingle_spec (cfg : CityMap) (value originSlot : Option String)
    (d : String)
    (hd : (validateDestinationSingle cfg value originSlot).destination = some (some d)) :
    (validateDestinationSingle cfg value originSlot).origin = none ∧
    validateCountry cfg d = true ∧
    ∀ os, originSlot = some os → normalizeCountry (some os) ≠ some d := by
  unfold validateDestinationSingle at hd ⊢
  by_cases hvc : validateCountryOpt cfg (normalizeCountry value) = true
  · rw [if_pos hvc] at hd ⊢
    by_cases hg : (truthyStr originSlot &&
        decide (normalizeCountry value = normalizeCountry originSlot)) = true
    · rw [if_pos hg] at hd
      simp at hd
    · rw [if_neg hg] at hd ⊢
      simp only at hd
      have hno : normalizeCountry value = some d := by
        injection hd
      refine ⟨rfl, ?_, ?_⟩
      · rw [hno] at hvc
        exact hvc
      · intro os hos heq
        rw [hos] at hg
        simp only [Bool.and_eq_true, decide_eq_true_eq] at hg
        push_neg at hg
        by_cases hempty : os = ""
        · rw [hempty] at heq
          have : d = "" := by
            simp only [normalizeCountry, if_pos rfl] at heq
            injection heq with h0
            exact h0.symm
          rw [hno] at hvc
          unfold validateCountryOpt validateCountry at hvc
          simp only [Bool.and_eq_true, decide_eq_true_eq] at hvc
          exact hvc.1 this
        · have htr : truthyStr (some os) = true := by simp [truthyStr, hempty]
          exact hg htr (heq.trans hno.symm).symm
  · rw [if_neg hvc] at hd
    simp at hd

/-- C8: neither origin nor destination validation can ever produce a state in
which the normalized origin equals the normalized destination: a parsed
"from A to B" pair with equal, supported endpoints is rejected with a message
and a cleared field (symmetrically in both validators); an accepted pair
patch always carries distinct endpoints; an accepted single-value patch
always differs from the normalized opposite slot; and a single supported
value equal to the normalized opposite slot is rejected with a message and a
cleared field. -/
theorem claim_C8 :
    (∀ (cfg : CityMap) (value destSlot : Option String) (o : String),
      (validate_origin cfg value destSlot).origin = some (some o) →
      (∀ d, (validate_origin cfg value destSlot).destination = some (some d) → o ≠ d) ∧
      ((validate_origin cfg value destSlot).destination = none →
        ∀ ds, destSlot = some ds → normalizeCountry (some ds) ≠ some o)) ∧
    (∀ (cfg : CityMap) (value originSlot : Option String) (d : String),
      (validate_destination cfg value originSlot).destination = some (some d) →
      (∀ o, (validate_destination cfg value originSlot).origin = some (some o) → o ≠ d) ∧
      ((validate_destination cfg value originSlot).origin = none →
        ∀ os, originSlot = some os → normalizeCountry (some os) ≠ some d)) ∧
    (∀ (cfg : CityMap) (value destSlot : Option String) (o : String),
      parseFromTo value = (some o, some o) → validateCountry cfg o = true →
      validate_origin cfg value destSlot =
        { origin := some none, messages := [samePlacesMsg] }) ∧
    (∀ (cfg : CityMap) (value originSlot : Option String) (d : String),
      parseFromTo value = (some d, some d) → validateCountry cfg d = true →
      validate_destination cfg value originSlot =
        { destination := some none, messages := [samePlacesMsg] }) ∧
    (∀ (cfg : CityMap) (value destSlot : Option String) (ds : String),
      parseFromTo value = (none, none) →
      validateCountryOpt cfg (normalizeCountry value) = true →
      destSlot = some ds → ds ≠ "" →
      normalizeCountry value = normalizeCountry (some ds) →
      validate_origin cfg value destSlot =
        { origin := some none, messages := [diffOriginMsg] }) ∧
    (∀ (cfg : CityMap) (value originSlot : Option String) (os : String),
      parseFromTo value = (none, none) →
      validateCountryOpt cfg (normalizeCountry value) = true →
      originSlot = some os → os ≠ "" →
      normalizeCountry value = normalizeCountry (some os) →
      validate_destination cfg value originSlot =
        { destination := some none, messages := [diffDestinationMsg] }) := by
  refine ⟨?_, ?_, ?_, ?_, ?_, ?_⟩
  · intro cfg value destSlot o
    unfold validate_origin
    split
    · rename_i o' d' heqp
      by_cases hvc : (validateCountry cfg o' && validateCountry cfg d') = true
      · rw [if_pos hvc]
        by_cases heq : o' = d'
        · rw [if_pos heq]
          intro ho
          simp at ho
        · rw [if_neg heq]
          intro ho
          simp only at ho
          have ho2 : o' = o := by
            injection ho with h0
            injection h0
          constructor
          · intro d hd
            simp only at hd
            have hd2 : d' = d := by
              injection hd with h0
              injection h0
            rw [← ho2, ← hd2]
            exact heq
          · intro hnone
            simp at hnone
      · rw [if_neg hvc]
        intro ho
        obtain ⟨hdst, _, hdiff⟩ := validateOriginSingle_spec cfg value destSlot o ho
        exact ⟨fun d hd => absurd (hdst ▸ hd) (by simp), fun _ => hdiff⟩
    · intro ho
      obtain ⟨hdst, _, hdiff⟩ := validateOriginSingle_spec cfg value destSlot o ho
      exact ⟨fun d hd => absurd (hdst ▸ hd) (by simp), fun _ => hdiff⟩
  · intro cfg value originSlot d
    unfold validate_destination
    split
    · rename_i o' d' heqp
      by_cases hvc : (validateCountry cfg o' && validateCountry cfg d') = true
      · rw [if_pos hvc]
        by_cases heq : o' = d'
        · rw [if_pos heq]
          intro hd
          simp at hd
        · rw [if_neg heq]
          intro hd
          simp only at hd
          have hd2 : d' = d := by
            injection hd with h0
            injection h0
          constructor
          · intro o ho
            simp only at ho
            have ho2 : o' = o := by
              injection ho with h0
              injection h0
            rw [← ho2, ← hd2]
            exact heq
          · intro hnone
            simp at hnone
      · rw [if_neg hvc]
        by_cases hvd : validateCountry cfg d' = true
        · rw [if_pos hvd]
          by_cases hg : (truthyStr originSlot &&
              decide (normalizeCountry originSlot = some d')) = true
          · rw [if_pos hg]
            intro hd
            simp at hd
          · rw [if_neg hg]
            intro hd
            simp only at hd
            have hd2 : d' = d := by
              injection hd with h0
              injection h0
            constructor
            · intro o ho
              simp at ho
            · intro _ os hos heq
              rw [hos] at hg
              simp only [Bool.and_eq_true, decide_eq_true_eq] at hg
              push_neg at hg
              by_cases hempty : os = ""
              · rw [hempty] at heq
                have : d = "" := by
                  simp only [normalizeCountry, if_pos rfl] at heq
                  injection heq with h0
                  exact h0.symm
                rw [hd2] at hvd
                exact validateCountry_ne_empty cfg d hvd this
              · have htr : truthyStr (some os) = true := by simp [truthyStr, hempty]
                exact hg htr (by rw [heq, hd2])
        · rw [if_neg hvd]
          intro hd
          simp at hd
    · intro hd
      obtain ⟨horg, _, hdiff⟩ := validateDestinationSingle_spec cfg value originSlot d hd
      exact ⟨fun o ho => absurd (horg ▸ ho) (by simp), fun _ => hdiff⟩
  · intro cfg value destSlot o hp hc
    unfold validate_origin
    split
    · rename_i o' d' heq
      rw [hp] at heq
      have ho : o = o' := by
        injection heq with h1 h2
        injection h1
      have hd : o = d' := by
        injection heq with h1 h2
        injection h2
      subst ho
      rw [← hd]
      rw [if_pos (by simp [hc]), if_pos rfl]
    · rename_i hne
      exact absurd hp (hne o o)
  · intro cfg value originSlot d hp hc
    unfold validate_destination
    split
    · rename_i o' d' heq
      rw [hp] at heq
      have ho : d = o' := by
        injection heq with h1 h2
        injection h1
      have hd : d = d' := by
        injection heq with h1 h2
        injection h2
      subst ho
      rw [← hd]
      rw [if_pos (by simp [hc]), if_pos rfl]
    · rename_i hne
      exact absurd hp (hne d d)
  · intro cfg value destSlot ds hp hvc hds hne heq
    unfold validate_origin
    split
    · rename_i o' d' heqp
      rw [hp] at heqp
      simp at heqp
    · subst hds
      unfold validateOriginSingle
      rw [if_pos hvc, if_pos (by simp [truthyStr, hne, heq])]
  · intro cfg value originSlot os hp hvc hos hne heq
    unfold validate_destination
    split
    · rename_i o' d' heqp
      rw [hp] at heqp
      simp at heqp
    · subst hos
      unfold validateDestinationSingle
      rw [if_pos hvc, if_pos (by simp [truthyStr, hne, heq])]

theorem claim_C8_witness :
    validate_origin [("Paris", "PAR"), ("Rome", "ROM")] (some "from Paris to Paris") none =
      { origin := some none, messages := [samePlacesMsg] } ∧
    validate_destination [("Paris", "PAR"), ("Rome", "ROM")] (some "Rome to Rome") none =
      { destination := some none, messages := [samePlacesMsg] } ∧
    ("Paris" ≠ "Rome" ∧ normalizeCountry (some "Rome") ≠ some "Paris") ∧
    validate_origin [("Paris", "PAR"), ("Rome", "ROM")] (some "paris") (some "Paris") =
      { origin := some none, messages := [diffOriginMsg] } ∧
    validate_destination [("Paris", "PAR"), ("Rome", "ROM")] (some "rome") (some "Rome") =
      { destination := some none, messages := [diffDestinationMsg] } := by
  refine ⟨?_, ?_, ⟨?_, ?_⟩, ?_, ?_⟩
  · exact claim_C8.2.2.1 [("Paris", "PAR"), ("Rome", "ROM")] (some "from Paris to Paris")
      none "Paris" (by decide) (by decide)
  · exact claim_C8.2.2.2.1 [("Paris", "PAR"), ("Rome", "ROM")] (some "Rome to Rome")
      none "Rome" (by decide) (by decide)
  · exact ((claim_C8.1 [("Paris", "PAR"), ("Rome", "ROM")] (some "from Paris to Rome")
      none "Paris" (by decide)).1 "Rome" (by decide))
  · exact ((claim_C8.1 [("Paris", "PAR"), ("Rome", "ROM")] (some "paris")
      (some "Rome") "Paris" (by decide)).2 (by decide) "Rome" rfl)
  · exact claim_C8.2.2.2.2.1 [("Paris", "PAR"), ("Rome", "ROM")] (some "paris")
      (some "Paris") "Paris" (by decide) (by decide) rfl (by decide) (by decide)
  · exact claim_C8.2.2.2.2.2 [("Paris", "PAR"), ("Rome", "ROM")] (some "rome")
      (some "Rome") "Rome" (by decide) (by decide) rfl (by decide) (by decide)

theorem mem_dedupKeepFirst (x : String) (seen l : List String)
    (h : x ∈ dedupKeepFirst seen l) : x ∈ l ∧ x ∉ seen ∧ x ≠ "" := by
  induction l generalizing seen with
  | nil => simp [dedupKeepFirst] at h
  | cons c rest ih =>
    unfold dedupKeepFirst at h
    by_cases hc : c = "" ∨ c ∈ seen
    · rw [if_pos hc] at h
      obtain ⟨h1, h2, h3⟩ := ih seen h
      exact ⟨List.mem_cons_of_mem c h1, h2, h3⟩
    · rw [if_neg hc] at h
      push_neg at hc
      rcases List.mem_cons.1 h with h0 | h0
      · subst h0
        exact ⟨List.mem_cons_self x rest, hc.2, hc.1⟩
      · obtain ⟨h1, h2, h3⟩ := ih (c :: seen) h0
        exact ⟨List.mem_cons_of_mem c h1, fun hs => h2 (List.mem_cons_of_mem c hs), h3⟩

theorem nodup_dedupKeepFirst (seen l : List String) : (dedupKeepFirst seen l).Nodup := by
  induction l generalizing seen with
  | nil => simp [dedupKeepFirst]
  | cons c rest ih =>
    unfold dedupKeepFirst
    by_cases hc : c = "" ∨ c ∈ seen
    · rw [if_pos hc]
      exact ih seen
    · rw [if_neg hc]
      refine List.nodup_cons.2 ⟨?_, ih (c :: seen)⟩
      intro hmem
      obtain ⟨_, h2, _⟩ := mem_dedupKeepFirst c (c :: seen) rest hmem
      exact h2 (List.mem_cons_self c seen)

/-- C9: the flight query returns only rows of the store whose travel date
equals the normalized conversational date and whose origin and destination
are each in the respective candidate sets; the result is ordered by the
nulls-last departure-time key and capped at 5; candidate expansion is
deduplicated, drawn from the primary code plus its nearby alternates, and
keeps the primary first; no match yields the empty list; and a route whose
primary destination code has no flights but whose nearby alternate does
returns the alternate's offers. -/
theorem claim_C9 :
    (∀ (cfg : CityMap) (table : List FlightRow) (o d date : String) (r : FlightRow),
      r ∈ queryRows cfg table o d date →
      r ∈ table ∧
      (∃ iso, toIsoFromDdmmyyyy date = some iso ∧ r.travel_date = iso) ∧
      r.origin ∈ expandIataCandidates cfg o ∧
      r.destination ∈ expandIataCandidates cfg d) ∧
    (∀ (cfg : CityMap) (table : List FlightRow) (o d date : String),
      List.Sorted depLE (queryRows cfg table o d date)) ∧
    (∀ (cfg : CityMap) (table : List FlightRow) (o d date : String),
      (queryRows cfg table o d date).length ≤ 5) ∧
    (∀ (cfg : CityMap) (name : String),
      (expandIataCandidates cfg name).Nodup ∧
      (∀ x ∈ expandIataCandidates cfg name,
        x = cityToIataFn cfg name ∨ x ∈ nearbyByIata (cityToIataFn cfg name)) ∧
      (cityToIataFn cfg name ≠ "" →
        (expandIataCandidates cfg name).head? = some (cityToIataFn cfg name))) ∧
    (∀ (cfg : CityMap) (table : List FlightRow) (o d date : String),
      (∀ r ∈ table, flightMatches ((toIsoFromDdmmyyyy date).getD "")
        (expandIataCandidates cfg o) (expandIataCandidates cfg d) r = false) →
      queryFlightsForDate cfg table o d date = []) ∧
    (queryFlightsForDate [("Brisbane", "BNE"), ("Seoul", "ICN")]
        [⟨"QF1", "2025-09-15", "ICN", "OOL", some "2025-09-15T10:00:00", none⟩]
        "Seoul" "Brisbane" "15/09/2025" =
      [("QF1", some "2025-09-15T10:00:00", none)]) := by
  refine ⟨?_, ?_, ?_, ?_, ?_, by decide⟩
  · intro cfg table o d date r hr
    unfold queryRows at hr
    split at hr
    · simp at hr
    · rename_i iso heq
      simp only at hr
      split at hr
      · simp at hr
      · have h2 := (List.mem_insertionSort depLE).1 (List.take_subset 5 _ hr)
        obtain ⟨hmem, hpred⟩ := List.mem_filter.1 h2
        unfold flightMatches at hpred
        simp only [Bool.and_eq_true, beq_iff_eq] at hpred
        refine ⟨hmem, ⟨iso, heq, hpred.1.1⟩, ?_, ?_⟩
        · have := hpred.1.2
          simpa using this
        · have := hpred.2
          simpa using this
  · intro cfg table o d date
    unfold queryRows
    split
    · exact List.sorted_nil
    · simp only
      split
      · exact List.sorted_nil
      · exact List.Pairwise.sublist (List.take_sublist 5 _)
          (List.sorted_insertionSort depLE _)
  · intro cfg table o d date
    unfold queryRows
    split
    · simp
    · simp only
      split
      · simp
      · exact le_trans (List.length_take_le 5 _) (le_refl 5)
  · intro cfg name
    have hexp : expandIataCandidates cfg name =
        if cityToIataFn cfg name = "" then []
        else dedupKeepFirst []
          (cityToIataFn cfg name :: nearbyByIata (cityToIataFn cfg name)) := rfl
    refine ⟨?_, ?_, ?_⟩
    · rw [hexp]
      split
      · exact List.nodup_nil
      · exact nodup_dedupKeepFirst _ _
    · intro x hx
      rw [hexp] at hx
      split at hx
      · simp at hx
      · obtain ⟨h1, _, _⟩ := mem_dedupKeepFirst x _ _ hx
        exact List.mem_cons.1 h1
    · intro hne
      rw [hexp, if_neg hne]
      unfold dedupKeepFirst
      rw [if_neg (by simp [hne])]
      rfl
  · intro cfg table o d date h
    unfold queryFlightsForDate queryRows
    split
    · rfl
    · rename_i iso heq
      simp only
      split
      · rfl
      · have hfil : table.filter (flightMatches iso (expandIataCandidates cfg o)
            (expandIataCandidates cfg d)) = [] := by
          rw [List.filter_eq_nil_iff]
          intro a ha
          have := h a ha
          rw [heq] at this
          simpa using this
        rw [hfil]
        rfl

theorem claim_C9_witness :
    (⟨"QF1", "2025-09-15", "ICN", "OOL", some "2025-09-15T10:00:00", none⟩ : FlightRow) ∈
      ([⟨"QF1", "2025-09-15", "ICN", "OOL", some "2025-09-15T10:00:00", none⟩] :
        List FlightRow) ∧
    (∃ iso, toIsoFromDdmmyyyy "15/09/2025" = some iso ∧
      ("2025-09-15" : String) = iso) ∧
    ("ICN" : String) ∈ expandIataCandidates [("Brisbane", "BNE"), ("Seoul", "ICN")] "Seoul" ∧
    ("OOL" : String) ∈ expandIataCandidates [("Brisbane", "BNE"), ("Seoul", "ICN")]
      "Brisbane" := by
  have h := claim_C9.1 [("Brisbane", "BNE"), ("Seoul", "ICN")]
    [⟨"QF1", "2025-09-15", "ICN", "OOL", some "2025-09-15T10:00:00", none⟩]
    "Seoul" "Brisbane" "15/09/2025"
    ⟨"QF1", "2025-09-15", "ICN", "OOL", some "2025-09-15T10:00:00", none⟩
    (by decide)
  exact h

end FlightBooking
